import Mathlib

/-!
Verification of the GS1/UDI scan hub core (server.js): input normalizer,
AI segmenter, policy decision engine, and the idempotency / commit-dedupe
handlers.  Every definition below is a shallow embedding of the
corresponding JavaScript function; strings are modelled as `List Char`
wrapped in `String`, JS numbers as `Nat`/`Int`.
-/

set_option maxHeartbeats 1000000

/-- ASCII Group Separator, `String.fromCharCode(29)` in the source. -/
def GSc : Char := Char.ofNat 29

/-- The character class of the JS regexes `\s` / `String.prototype.trim`:
ASCII whitespace, NBSP, and the Unicode space separators. -/
def isJsWs (c : Char) : Bool :=
  let n := c.toNat
  (9 ≤ n && n ≤ 13) || n = 32 || n = 160 || n = 0x1680 ||
  (0x2000 ≤ n && n ≤ 0x200a) || n = 0x2028 || n = 0x2029 ||
  n = 0x202f || n = 0x205f || n = 0x3000 || n = 0xfeff

/-- `String.prototype.trim`: drop leading and trailing whitespace. -/
def trimList (l : List Char) : List Char :=
  ((l.dropWhile isJsWs).reverse.dropWhile isJsWs).reverse

/-- The symbology-identifier codes of the regex
`^\](C1|c1|d2|D2|Q3|q3|e0|E0)\s*`. -/
def symCode (a b : Char) : Bool :=
  (a = 'C' && b = '1') || (a = 'c' && b = '1') ||
  (a = 'd' && b = '2') || (a = 'D' && b = '2') ||
  (a = 'Q' && b = '3') || (a = 'q' && b = '3') ||
  (a = 'e' && b = '0') || (a = 'E' && b = '0')

/-- Does the string start with `]` followed by a symbology code?  This is
exactly the guard of the anchored strip regex in `normalizeInput`. -/
def startsSymb (l : List Char) : Bool :=
  match l with
  | ']' :: a :: b :: _ => symCode a b
  | _ => false

/-- `s.replace(/^\](C1|c1|d2|D2|Q3|q3|e0|E0)\s*/g, "")`: the regex is
anchored, so at most one occurrence is stripped, together with the
whitespace that follows the code. -/
def stripSymbology (l : List Char) : List Char :=
  match l with
  | ']' :: a :: b :: rest =>
      if symCode a b then rest.dropWhile isJsWs else ']' :: a :: b :: rest
  | l => l

/-- `s.replace(/\s+/g, "")`: remove every whitespace character. -/
def removeWs (l : List Char) : List Char := l.filter (fun c => !isJsWs c)

/-- `s.replace(/\)\s*\(/g, "")` applied to the already whitespace-free
string: delete each `)(` pair, scanning left to right. -/
def collapseParenPairs : List Char → List Char
  | [] => []
  | [c] => [c]
  | c :: d :: rest =>
      if c = ')' ∧ d = '(' then collapseParenPairs rest
      else c :: collapseParenPairs (d :: rest)

/-- `s.replace(/[()]/g, "")`: remove every parenthesis. -/
def stripParens (l : List Char) : List Char :=
  l.filter (fun c => c ≠ '(' ∧ c ≠ ')')

/-- Does the string begin with the literal escape `\u001d` (or `\u001D`)?
This is the match condition of the regex `/\\u001[dD]/g`. -/
def startsGsEsc (l : List Char) : Bool :=
  (['\\', 'u', '0', '0', '1', 'd'].isPrefixOf l) || (['\\', 'u', '0', '0', '1', 'D'].isPrefixOf l)

/-- `s.replace(/\\u001[dD]/g, GS)`: replace each literal six-character
escape with the real GS control character, scanning left to right. -/
def replaceGsEsc : List Char → List Char
  | [] => []
  | '\\' :: 'u' :: '0' :: '0' :: '1' :: d :: rest =>
      if d = 'd' ∨ d = 'D' then GSc :: replaceGsEsc rest
      else '\\' :: replaceGsEsc ('u' :: '0' :: '0' :: '1' :: d :: rest)
  | c :: rest => c :: replaceGsEsc rest

/-- Does the string contain the literal escape anywhere? -/
def hasGsEsc : List Char → Bool
  | [] => false
  | c :: rest => startsGsEsc (c :: rest) || hasGsEsc rest

/-- The pipeline body of `normalizeInput` on the character list. -/
def normList (l : List Char) : List Char :=
  replaceGsEsc (stripParens (collapseParenPairs (removeWs (stripSymbology (trimList l)))))

/-- `normalizeInput(raw)`: trim, strip one symbology prefix, remove
whitespace, collapse parenthesis notation, replace GS escapes.  Empty
input yields the empty string. -/
def normalizeInput (raw : String) : String :=
  if raw = "" then "" else String.mk (normList raw.data)

/-- `gtinTo14(d)`: left-zero-pad to 14 when shorter, keep when exactly 14,
rightmost 14 characters when longer (`slice(-14)`). -/
def gtinTo14 (d : String) : String :=
  if d.length = 14 then d
  else if d.length < 14 then String.mk (List.replicate (14 - d.length) '0' ++ d.data)
  else String.mk (d.data.drop (d.length - 14))

/-- The weighted sum of `isValidGtin14`: the loop walks from the rightmost
non-check digit leftward with weight alternating 3,1,3,1…; here the list
is that right-to-left digit sequence and `w` the current weight. -/
def altSum : List Nat → Nat → Nat
  | [], _ => 0
  | d :: rest, w => d * w + altSum rest (if w = 3 then 1 else 3)

/-- `isValidGtin14(gtin14)`: strip non-digits (`replace(/\D/g,"")`),
require exactly 14 digits, compare the GS1 mod-10 check digit. -/
def isValidGtin14 (gtin14 : String) : Bool :=
  let s := gtin14.data.filter Char.isDigit
  if s.length = 14 then
    let digits := s.map (fun c => c.toNat - 48)
    let check := digits.getD 13 0
    let sum := altSum (digits.take 13).reverse 3
    decide ((10 - sum % 10) % 10 = check)
  else false

/-- Result of `parseExpiryYYMMDD`: either `{error}` or `{iso, y, m, d}`. -/
inductive ExpiryResult where
  | err (code : String)
  | ok (iso : String) (y m d : Nat)

deriving Repr, DecidableEq

/-- Gregorian (UTC-calendar) leap-year rule. -/
def isLeapYear (y : Nat) : Bool :=
  y % 4 = 0 && (y % 100 ≠ 0 || y % 400 = 0)

/-- `new Date(Date.UTC(fullYear, mm, 0)).getUTCDate()`: the number of days
in 1-based month `m` of year `y`.  Only evaluated for `1 ≤ m ≤ 12`. -/
def lastDayOfMonth (y m : Nat) : Nat :=
  if m = 2 then (if isLeapYear y then 29 else 28)
  else if m = 4 ∨ m = 6 ∨ m = 9 ∨ m = 11 then 30
  else 31

/-- Digits of a decimal string to a number, as `Number(s)` on digit
strings. -/
def num2 (l : List Char) : Nat :=
  l.foldl (fun acc c => acc * 10 + (c.toNat - 48)) 0

/-- Two-digit zero-padded decimal rendering (for `n ≤ 99`). -/
def pad2 (n : Nat) : List Char :=
  [Char.ofNat (48 + n / 10), Char.ofNat (48 + n % 10)]

/-- `YYYY-MM-DD` rendering: `toISOString().slice(0,10)` of the UTC date. -/
def isoOf (y m d : Nat) : String :=
  String.mk ((Nat.toDigits 10 y) ++ '-' :: pad2 m ++ '-' :: pad2 d)

/-- `parseExpiryYYMMDD(v)`: six digits `YYMMDD`; year `2000+YY`; month
must be 1–12; day `00` means last day of the month; otherwise the day
must fit the month length. -/
def parseExpiryYYMMDD (v : String) : ExpiryResult :=
  let l := v.data
  if l.length = 6 ∧ l.all Char.isDigit then
    let yy := num2 (l.take 2)
    let mm := num2 ((l.drop 2).take 2)
    let dd := num2 ((l.drop 4).take 2)
    if mm < 1 ∨ 12 < mm then .err "EXPIRY_MONTH_INVALID"
    else
      let fullYear := 2000 + yy
      let lastDay := lastDayOfMonth fullYear mm
      let day := if dd = 0 then lastDay else dd
      if day < 1 ∨ lastDay < day then .err "EXPIRY_DAY_INVALID"
      else .ok (isoOf fullYear mm day) fullYear mm day
  else .err "EXPIRY_FORMAT_INVALID"

/-- Days from the Unix epoch (1970-01-01) to the civil date `y-m-d`,
matching `new Date(Date.UTC(y, m-1, d)).getTime() / 86400000` for the
in-range dates the engine produces. -/
def daysFromCivil (y : Nat) (m d : Nat) : Int :=
  let yi : Int := if m ≤ 2 then (y : Int) - 1 else (y : Int)
  let era : Int := (if 0 ≤ yi then yi else yi - 399) / 400
  let yoe : Int := yi - era * 400
  let mp : Int := ((m : Int) + 9) % 12
  let doy : Int := (153 * mp + 2) / 5 + (d : Int) - 1
  let doe : Int := yoe * 365 + yoe / 4 - yoe / 100 + doy
  era * 146097 + doe - 719468

/-- `Math.ceil(a / b)` for integer `a` and positive integer `b`. -/
def jsCeilDiv (a b : Int) : Int := -(Int.fdiv (-a) b)

/-- A parsed AI/value segment.  `source` carries the `"NUMERIC_AS_GTIN"`
tag of the numeric fast path; `missing_gs` models the
`meta: {missing_gs: true}` annotation of a lookahead-delimited field. -/
structure Segment where
  ai : String
  value : String
  source : Option String := none
  missing_gs : Bool := false

deriving Repr, DecidableEq

/-- The `meta` object accumulated by `parseGs1`. -/
structure ParseMeta where
  used_lookahead : Bool := false
  missing_gs_detected : Bool := false
  missing_gs_fields : List String := []

deriving Repr, DecidableEq

/-- `{segments, meta}` as returned by `parseGs1`. -/
structure ParseResult where
  segments : List Segment
  meta : ParseMeta

deriving Repr, DecidableEq

/-- The five recognized AIs (`KNOWN` in the source). -/
def isKnownAI2 (l : List Char) : Bool :=
  match l with
  | a :: b :: _ =>
      ([a, b] = ['0', '1'] || [a, b] = ['1', '7'] || [a, b] = ['0', '0'] ||
       [a, b] = ['1', '0'] || [a, b] = ['2', '1'])
  | _ => false

/-- Outcome of the variable-length scan loop: stop at a GS character, stop
at an inferred next-AI boundary, or run to the end of the input. -/
inductive ScanRes where
  | gs (j : Nat)
  | ai (j : Nat)
  | fin

deriving Repr, DecidableEq

/-- The inner loop of the AI 10 / AI 21 case: scan from position `j` until
a GS character, or until a known AI starts at `j > 0` (the missing-GS
boundary inference), whichever comes first. -/
def scanVar : List Char → Nat → ScanRes
  | [], _ => .fin
  | c :: rest, j =>
      if c = GSc then .gs j
      else if 0 < j ∧ isKnownAI2 (c :: rest) then .ai j
      else scanVar rest (j + 1)

/-- One `while` pass of `parseGs1` over the remaining input `rem`,
expressed with explicit fuel.  Every iteration of the JS loop consumes at
least two characters (or terminates), so `fuel = rem.length` suffices;
exhausted fuel returns the neutral result. -/
def parseLoop (mode : String) : Nat → List Char → List Segment × ParseMeta
  | 0, _ => ([], {})
  | _ + 1, [] => ([], {})
  | fuel + 1, c :: rest =>
      let rem := c :: rest
      let ai2 := rem.take 2
      if ai2 = ['0', '1'] then
        let p := parseLoop mode fuel (rem.drop 16)
        (⟨"01", String.mk ((rem.drop 2).take 14), none, false⟩ :: p.1, p.2)
      else if ai2 = ['1', '7'] then
        let p := parseLoop mode fuel (rem.drop 8)
        (⟨"17", String.mk ((rem.drop 2).take 6), none, false⟩ :: p.1, p.2)
      else if ai2 = ['0', '0'] then
        let p := parseLoop mode fuel (rem.drop 20)
        (⟨"00", String.mk ((rem.drop 2).take 18), none, false⟩ :: p.1, p.2)
      else if ai2 = ['1', '0'] ∨ ai2 = ['2', '1'] then
        let ai := String.mk ai2
        let body := rem.drop 2
        match scanVar body 0 with
        | .ai j =>
            let p := parseLoop mode fuel (body.drop j)
            (⟨ai, String.mk (body.take j), none, true⟩ :: p.1,
             { used_lookahead := (mode = "LOOKAHEAD") || p.2.used_lookahead,
               missing_gs_detected := true,
               missing_gs_fields := ai :: p.2.missing_gs_fields })
        | .gs j =>
            let p := parseLoop mode fuel (body.drop (j + 1))
            (⟨ai, String.mk (body.take j), none, false⟩ :: p.1, p.2)
        | .fin => ([⟨ai, String.mk body, none, false⟩], {})
      else ([⟨"??", String.mk rem, none, false⟩], {})

/-- `parseGs1(norm, missingGsBehavior)`: numeric-as-GTIN fast path for
all-digit strings of length 8/12/13/14, otherwise the AI scan loop. -/
def parseGs1 (norm : String) (missingGsBehavior : String) : ParseResult :=
  let l := norm.data
  let isAllDigits := l ≠ [] ∧ l.all Char.isDigit
  let numericAsGtin := isAllDigits ∧ (l.length = 8 ∨ l.length = 12 ∨ l.length = 13 ∨ l.length = 14)
  if numericAsGtin then
    { segments := [⟨"01", gtinTo14 norm, some "NUMERIC_AS_GTIN", false⟩], meta := {} }
  else
    let p := parseLoop missingGsBehavior l.length l
    { segments := p.1, meta := p.2 }

/-- A policy configuration row.  Optional fields model the JS accesses
that apply a default on a falsy / undefined value. -/
structure Policy where
  expiry_required : Bool := true
  tracking_policy : Option String := none
  missing_gs_behavior : Option String := none
  accept_numeric_as_gtin : Option Bool := none
  enforce_gtin_checkdigit : Option Bool := none
  near_expiry_threshold_days : Option Int := none
  near_expiry_severity : Option String := none
  allow_commit_on_warn : Bool := true

deriving Repr, DecidableEq

/-- JS `x || default` on an optional string: `none` and `""` are falsy. -/
def jsOrS (x : Option String) (dflt : String) : String :=
  match x with
  | some s => if s = "" then dflt else s
  | none => dflt

/-- `String.prototype.toUpperCase` on the ASCII configuration values. -/
def jsUpper (s : String) : String := String.mk (s.data.map Char.toUpper)

/-- The `details` payloads attached to checks by `decide`. -/
inductive Details where
  | fields (fs : List String)
  | gtin14 (g : String)
  | expiry (iso : String) (daysLeft : Int) (thresholdDays : Int)

deriving Repr, DecidableEq

/-- A produced check; `originally` is the marker the global downgrade
transform adds to rewritten BLOCK checks. -/
structure Check where
  code : String
  severity : String
  message : String
  details : Option Details := none
  originally : Option String := none

deriving Repr, DecidableEq

/-- The `meta` object of a decision: the parse meta spread together with
the fields the downgrade transform adds. -/
structure DecideMeta where
  used_lookahead : Bool := false
  missing_gs_detected : Bool := false
  missing_gs_fields : List String := []
  no_block : Option Bool := none
  would_block : Option Bool := none
  would_block_codes : Option (List String) := none

deriving Repr, DecidableEq

/-- `{decision, checks, meta}` as returned by `decide`. -/
structure Decision where
  decision : String
  checks : List Check
  meta : DecideMeta

deriving Repr, DecidableEq

/-- The `map` built by `decide`: `map[p.ai] = p.value` for every segment
whose AI is not `"??"`; a later segment overwrites an earlier one. -/
def mapGet (parsed : List Segment) (ai : String) : Option String :=
  ((parsed.filter (fun p => p.ai = ai ∧ p.ai ≠ "??")).map (fun p => p.value)).getLast?

/-- JS truthiness of `map[ai]`: defined and non-empty. -/
def truthyS (x : Option String) : Bool :=
  match x with
  | some s => s ≠ ""
  | none => false

/-- Check 1: numeric-as-GTIN fast path used while
`accept_numeric_as_gtin === false`. -/
def checkNumeric (parsed : List Segment) (policy : Policy) : List Check :=
  if parsed.any (fun x => x.source = some "NUMERIC_AS_GTIN") ∧
      policy.accept_numeric_as_gtin = some false then
    [⟨"NUMERIC_GTIN_NOT_ALLOWED", "BLOCK",
      "Numeric-only payload treated as GTIN is disabled by policy.", none, none⟩]
  else []

/-- Check 2: explicit missing-GS enforcement; BLOCK under the strict
behavior, WARN under LOOKAHEAD. -/
def checkMissingGs (meta : ParseMeta) (policy : Policy) : List Check :=
  if meta.missing_gs_detected then
    let sev := if jsOrS policy.missing_gs_behavior "BLOCK" = "LOOKAHEAD" then "WARN" else "BLOCK"
    [⟨"MISSING_GS_SEPARATOR", sev,
      (if sev = "BLOCK" then "Missing GS (ASCII 29) separator detected. Strict policy blocks this scan."
       else "Missing GS separator detected. Parsed via lookahead (WARN)."),
      some (.fields meta.missing_gs_fields), none⟩]
  else []

/-- Check 3: required GTIN (AI 01). -/
def checkReq01 (parsed : List Segment) : List Check :=
  if truthyS (mapGet parsed "01") then []
  else [⟨"REQ_AI_01_MISSING", "BLOCK", "Missing GTIN (AI 01).", none, none⟩]

/-- Check 4: GTIN check digit under `enforce_gtin_checkdigit !== false`. -/
def checkGtin (parsed : List Segment) (policy : Policy) : List Check :=
  if policy.enforce_gtin_checkdigit ≠ some false ∧ truthyS (mapGet parsed "01") then
    let g14 := gtinTo14 ((mapGet parsed "01").getD "")
    if isValidGtin14 g14 then []
    else [⟨"GTIN_CHECKDIGIT_INVALID", "BLOCK", "Invalid GTIN check digit for AI 01.",
           some (.gtin14 g14), none⟩]
  else []

/-- Check 5a: required expiry (AI 17) under `expiry_required`. -/
def checkReq17 (parsed : List Segment) (policy : Policy) : List Check :=
  if policy.expiry_required ∧ ¬ truthyS (mapGet parsed "17") then
    [⟨"REQ_AI_17_MISSING", "BLOCK", "Missing Expiry (AI 17) per policy.", none, none⟩]
  else []

/-- The expired / near-expiry checks for a successfully parsed expiry
date, against the injected clock `nowMs`. -/
def checkExpiryOk (policy : Policy) (nowMs : Int) (iso : String) (y m d : Nat) : List Check :=
  let diffDays := jsCeilDiv (86400000 * daysFromCivil y m d - nowMs) 86400000
  if diffDays < 0 then
    [⟨"EXPIRY_EXPIRED", "BLOCK", "Item is expired (AI 17).", none, none⟩]
  else
    let thr := policy.near_expiry_threshold_days.getD 90
    if diffDays ≤ thr then
      let sev := if jsUpper (jsOrS policy.near_expiry_severity "WARN") = "BLOCK" then "BLOCK" else "WARN"
      [⟨"EXPIRY_NEAR", sev, "Expiry is within threshold (" ++ toString thr ++ " days).",
        some (.expiry iso diffDays thr), none⟩]
    else []

/-- Check 5b: expiry format/calendar validation plus the expired and
near-expiry checks, against the injected clock `nowMs`. -/
def checkExpiry (parsed : List Segment) (policy : Policy) (nowMs : Int) : List Check :=
  if truthyS (mapGet parsed "17") then
    match parseExpiryYYMMDD ((mapGet parsed "17").getD "") with
    | .err e => [⟨e, "BLOCK", "Invalid expiry value for AI 17.", none, none⟩]
    | .ok iso y m d => checkExpiryOk policy nowMs iso y m d
  else []

/-- Check 6: lot / serial tracking requirements. -/
def checkTracking (parsed : List Segment) (policy : Policy) : List Check :=
  let tp := jsOrS policy.tracking_policy "LOT_ONLY"
  (if (tp = "LOT_ONLY" ∨ tp = "LOT_AND_SERIAL") ∧ ¬ truthyS (mapGet parsed "10") then
    [⟨"REQ_AI_10_MISSING", "BLOCK", "Missing Lot (AI 10) per policy.", none, none⟩]
  else []) ++
  (if (tp = "SERIAL_ONLY" ∨ tp = "LOT_AND_SERIAL") ∧ ¬ truthyS (mapGet parsed "21") then
    [⟨"REQ_AI_21_MISSING", "BLOCK", "Missing Serial (AI 21) per policy.", none, none⟩]
  else [])

/-- Check 7: opaque `"??"` payload. -/
def checkUnknown (parsed : List Segment) : List Check :=
  if parsed.any (fun x => x.ai = "??") then
    [⟨"UNKNOWN_PAYLOAD", "WARN", "Unrecognized payload after parsing.", none, none⟩]
  else []

/-- All checks of `decide`, in the order the source pushes them. -/
def decideChecks (pr : ParseResult) (policy : Policy) (nowMs : Int) : List Check :=
  checkNumeric pr.segments policy ++ checkMissingGs pr.meta policy ++
  checkReq01 pr.segments ++ checkGtin pr.segments policy ++
  checkReq17 pr.segments policy ++ checkExpiry pr.segments policy nowMs ++
  checkTracking pr.segments policy ++ checkUnknown pr.segments

/-- The strict max-severity aggregation rule. -/
def aggregateDecision (checks : List Check) : String :=
  if checks.any (fun c => c.severity = "BLOCK") then "BLOCK"
  else if checks.length ≠ 0 then "WARN" else "PASS"

/-- The rewrite the global downgrade transform applies to one check. -/
def downgradeCheck (c : Check) : Check :=
  if c.severity = "BLOCK" then { c with severity := "WARN", originally := some "BLOCK" } else c

/-- `decide(parsedResult, policy)`.  The process-wide `NO_BLOCK` flag and
the `new Date()` clock are passed explicitly (`noBlock`, `nowMs`) so the
evaluation is a pure function of its inputs. -/
def decide (pr : ParseResult) (policy : Policy) (noBlock : Bool) (nowMs : Int) : Decision :=
  let checks := decideChecks pr policy nowMs
  let hasBlock := checks.any (fun c => c.severity = "BLOCK")
  let decisionRaw := if hasBlock then "BLOCK" else if checks.length ≠ 0 then "WARN" else "PASS"
  if noBlock then
    let block_codes := (checks.filter (fun c => c.severity = "BLOCK")).map (fun c => c.code)
    let checks_nb := checks.map downgradeCheck
    let decision := if decisionRaw = "BLOCK" then "WARN" else decisionRaw
    { decision := decision, checks := checks_nb,
      meta := { used_lookahead := pr.meta.used_lookahead,
                missing_gs_detected := pr.meta.missing_gs_detected,
                missing_gs_fields := pr.meta.missing_gs_fields,
                no_block := some true, would_block := some hasBlock,
                would_block_codes := some block_codes } }
  else
    { decision := decisionRaw, checks := checks,
      meta := { used_lookahead := pr.meta.used_lookahead,
                missing_gs_detected := pr.meta.missing_gs_detected,
                missing_gs_fields := pr.meta.missing_gs_fields } }

/-- A row of the `idempotency` table: write-once key → (request hash,
response).  The response type is abstract. -/
structure IdemRecord (α : Type) where
  key : String
  request_hash : String
  response : α

deriving Repr, DecidableEq

/-- `getIdemRecord(key)`: `SELECT … WHERE key=$1` on the primary key. -/
def getIdemRecord {α : Type} (store : List (IdemRecord α)) (key : String) :
    Option (IdemRecord α) :=
  (store.filter (fun r => r.key = key)).head?

/-- `putIdemRecord`: `INSERT … ON CONFLICT (key) DO NOTHING` — never
overwrite an existing record. -/
def putIdemRecord {α : Type} (store : List (IdemRecord α)) (key request_hash : String)
    (response : α) : List (IdemRecord α) :=
  if (getIdemRecord store key).isSome then store
  else store ++ [⟨key, request_hash, response⟩]

deriving instance DecidableEq for Except

/-- Outcome of a handler run: the HTTP-level result, the idempotency
store afterwards, and whether the operation body (parse, scan upsert,
response computation) actually ran. -/
structure PVOut (α : Type) where
  result : Except String α
  store : List (IdemRecord α)
  computed : Bool

deriving Repr, DecidableEq

/-- The tail of the `/api/scans/parse-validate` handler once the
idempotency lookup came back absent: run the operation (its response is
`compute`), store it with `putIdemRecord`, and answer with the locally
computed response. -/
def pvCompute {α : Type} (store : List (IdemRecord α)) (key request_hash : String)
    (compute : α) : PVOut α :=
  ⟨.ok compute, putIdemRecord store key request_hash compute, true⟩

/-- The `/api/scans/parse-validate` idempotency wrapper: reject on a
same-key different-hash replay (`cached.request_hash &&
cached.request_hash !== request_hash`), return the cached response on a
matching replay, otherwise compute and store. -/
def parseValidateHandler {α : Type} (store : List (IdemRecord α)) (key request_hash : String)
    (compute : α) : PVOut α :=
  match getIdemRecord store key with
  | some cached =>
      if cached.request_hash ≠ "" ∧ cached.request_hash ≠ request_hash then
        ⟨.error "IDEMPOTENCY_CONFLICT", store, false⟩
      else ⟨.ok cached.response, store, false⟩
  | none => pvCompute store key request_hash compute

/-- A row of the `bc_postings` ledger, which carries the unique business
key `(scan_id, posting_intent)`. -/
structure CommitRow (α : Type) where
  scan_id : String
  posting_intent : String
  idempotency_key : String
  request_hash : String
  status : String
  response : α

deriving Repr, DecidableEq

/-- A commit response as sent to the caller: the stored response body
plus the optional `dedupe` annotation spread on top. -/
structure CResp (α : Type) where
  payload : α
  dedupe : Option String := none

deriving Repr, DecidableEq

/-- `SELECT response FROM bc_postings WHERE scan_id=$1 AND
posting_intent=$2 ORDER BY created_at DESC LIMIT 1`: rows are kept in
insertion order, so the newest matching row is the last one. -/
def ledgerFind {α : Type} (ledger : List (CommitRow α)) (sid pi : String) :
    Option (CommitRow α) :=
  (ledger.filter (fun r => r.scan_id = sid ∧ r.posting_intent = pi)).getLast?

/-- Outcome of a commit step: result, ledger afterwards, idempotency
store afterwards, and whether a new posting result was produced. -/
structure COut (α : Type) where
  result : Except String (CResp α)
  ledger : List (CommitRow α)
  store : List (IdemRecord α)
  computed : Bool

deriving Repr, DecidableEq

/-- The `INSERT INTO bc_postings … catch` tail of the commit handler: a
row with the same business key makes the unique index
`uq_bc_postings_scan_intent` reject the insert, in which case the
handler reads the winner back and returns it annotated
`dedupe: "UNIQUE_INDEX"`; only a failed read-back rethrows. -/
def commitInsert {α : Type} (ledger : List (CommitRow α)) (row : CommitRow α) :
    Except String (CResp α) × List (CommitRow α) :=
  if (ledgerFind ledger row.scan_id row.posting_intent).isSome then
    match ledgerFind ledger row.scan_id row.posting_intent with
    | some winner => (.ok ⟨winner.response, some "UNIQUE_INDEX"⟩, ledger)
    | none => (.error "INSERT_FAILED", ledger)
  else (.ok ⟨row.response, none⟩, ledger ++ [row])

/-- The `/api/postings/commit` handler: business-key dedupe first, then
the idempotency wrapper, then compute, store, and insert into the
ledger.  `response` abstracts the simulated BC posting result. -/
def commitHandler {α : Type} (ledger : List (CommitRow α)) (store : List (IdemRecord α))
    (sid pi key request_hash : String) (response : α) (status : String) : COut α :=
  match ledgerFind ledger sid pi with
  | some existing => ⟨.ok ⟨existing.response, some "BUSINESS_KEY"⟩, ledger, store, false⟩
  | none =>
      match getIdemRecord store key with
      | some cached =>
          if cached.request_hash ≠ "" ∧ cached.request_hash ≠ request_hash then
            ⟨.error "IDEMPOTENCY_CONFLICT", ledger, store, false⟩
          else ⟨.ok ⟨cached.response, none⟩, ledger, store, false⟩
      | none =>
          let store2 := putIdemRecord store key request_hash response
          let p := commitInsert ledger ⟨sid, pi, key, request_hash, status, response⟩
          ⟨p.1, p.2, store2, true⟩

/-- Test-vector constructor: the six-digit string `YYMMDD`. -/
def mkYYMMDD (yy mm dd : Nat) : String :=
  String.mk (pad2 yy ++ (pad2 mm ++ pad2 dd))

/-- The spec's normalization to 14 digits, word for word: left-zero-pad
when shorter, rightmost 14 digits when longer. -/
def specTo14 (v : String) : String :=
  if v.length < 14 then String.mk (List.replicate (14 - v.length) '0' ++ v.data)
  else String.mk (v.data.drop (v.length - 14))

/-- The spec's check-digit rule, word for word: weights 3,1,3,1,…
starting from the rightmost non-check digit (position `p` in the
reversed body gets weight 3 when `p` is even), summed; the check digit
is `(10 − (sum mod 10)) mod 10` and must equal the stored last digit. -/
def specGtinOk (v : String) : Bool :=
  let digits : List Nat := (specTo14 v).data.map (fun c => c.toNat - 48)
  let check : Nat := digits.getD 13 0
  let sum : Nat := ((digits.take 13).reverse.enum.map
    (fun pd => pd.2 * (if pd.1 % 2 = 0 then 3 else 1))).sum
  Decidable.decide ((10 - sum % 10) % 10 = check)

example : normalizeInput "  ]C1 (01) 00012345678905 " = "0100012345678905" := by decide

example : normalizeInput "01\\u001d" = String.mk ['0', '1', GSc] := by decide

example : normalizeInput "](C1)X" = "]C1X" := by decide

example : normalizeInput "]C1X" = "X" := by decide

example : isValidGtin14 "00012345678905" = true := by decide

example : isValidGtin14 "00012345678904" = false := by decide

example : parseExpiryYYMMDD "240230" = .err "EXPIRY_DAY_INVALID" := by decide

example : parseExpiryYYMMDD "240229" = .ok "2024-02-29" 2024 2 29 := by decide

example : parseExpiryYYMMDD "240200" = .ok "2024-02-29" 2024 2 29 := by decide

example : parseExpiryYYMMDD "241301" = .err "EXPIRY_MONTH_INVALID" := by decide

example : parseExpiryYYMMDD "24020" = .err "EXPIRY_FORMAT_INVALID" := by decide

example : daysFromCivil 1970 1 1 = 0 := by decide

example : daysFromCivil 2024 2 29 = 19782 := by decide

example : jsCeilDiv 3 2 = 2 := by decide

example : jsCeilDiv (-3) 2 = -1 := by decide

example : jsCeilDiv 4 2 = 2 := by decide

example : parseGs1 "0100012345678905" "BLOCK" =
    { segments := [⟨"01", "00012345678905", none, false⟩], meta := {} } := by decide

example : parseGs1 "00012345678905" "BLOCK" =
    { segments := [⟨"01", "00012345678905", some "NUMERIC_AS_GTIN", false⟩], meta := {} } := by
  decide

example : parseGs1 "010001234567890510251231" "BLOCK" =
    { segments := [⟨"01", "00012345678905", none, false⟩, ⟨"10", "251231", none, false⟩],
      meta := {} } := by decide

example : parseGs1 "010001234567890510ABC17251231" "LOOKAHEAD" =
    { segments := [⟨"01", "00012345678905", none, false⟩, ⟨"10", "ABC", none, true⟩,
                   ⟨"17", "251231", none, false⟩],
      meta := { used_lookahead := true, missing_gs_detected := true,
                missing_gs_fields := ["10"] } } := by decide

example : parseGs1 (String.mk ('1' :: '0' :: 'L' :: 'O' :: 'T' :: GSc :: '2' :: '1' :: 'S' :: 'N' :: [])) "BLOCK" =
    { segments := [⟨"10", "LOT", none, false⟩, ⟨"21", "SN", none, false⟩], meta := {} } := by
  decide

example : parseGs1 "XYZ" "BLOCK" =
    { segments := [⟨"??", "XYZ", none, false⟩], meta := {} } := by decide

example :
    (decide (parseGs1 "0100012345678905" "BLOCK") { tracking_policy := some "LOT_ONLY" } false 0).decision
      = "BLOCK" := by decide

example :
    (decide { segments := [⟨"01", "00012345678905", none, false⟩], meta := {} }
      { expiry_required := false, tracking_policy := some "NONE" } false 0).decision = "PASS" := by
  decide

example :
    (decide { segments := [⟨"01", "00012345678905", none, false⟩], meta := {} }
      { tracking_policy := some "LOT_ONLY" } true 0) =
    { decision := "WARN",
      checks := [⟨"REQ_AI_17_MISSING", "WARN", "Missing Expiry (AI 17) per policy.", none, some "BLOCK"⟩,
                 ⟨"REQ_AI_10_MISSING", "WARN", "Missing Lot (AI 10) per policy.", none, some "BLOCK"⟩],
      meta := { no_block := some true, would_block := some true,
                would_block_codes := some ["REQ_AI_17_MISSING", "REQ_AI_10_MISSING"] } } := by
  decide

example :
    commitHandler (α := Nat) [⟨"S1", "PURCHASE_RECEIPT", "k0", "h0", "SIMULATED_OK", 7⟩] []
      "S1" "PURCHASE_RECEIPT" "k1" "h1" 9 "SIMULATED_OK" =
    ⟨.ok ⟨7, some "BUSINESS_KEY"⟩, [⟨"S1", "PURCHASE_RECEIPT", "k0", "h0", "SIMULATED_OK", 7⟩],
     [], false⟩ := by decide

/-- C5 counterexample: on the spec's example input
`"010001234567890510251231"` the lot body `"251231"` contains no known
two-digit AI at any scanned offset, so the segmenter does not flag a
missing GS in either mode, contradicting the claimed
`missing_gs_detected=true` / `"10" ∈ missing_gs_fields`. -/
theorem parseGs1_spec_example_no_missing_gs :
    (parseGs1 "010001234567890510251231" "BLOCK").meta.missing_gs_detected = false ∧
    (parseGs1 "010001234567890510251231" "LOOKAHEAD").meta.missing_gs_detected = false ∧
    (parseGs1 "010001234567890510251231" "BLOCK").meta.missing_gs_fields = [] ∧
    (parseGs1 "010001234567890510251231" "LOOKAHEAD").meta.missing_gs_fields = [] := by
  decide

/-- C5 (amended): the spec's example input parses into AI 01 plus an AI
10 lot `"251231"` with no missing-GS evidence, because boundary
inference only fires when a known AI starts inside the lot body; an
input whose lot really is interrupted by a known AI without a GS, such
as `"010001234567890510ABC17251231"`, does set
`missing_gs_detected=true` with `"10"` in `missing_gs_fields` in both
modes. -/
theorem parseGs1_missing_gs_example :
    (parseGs1 "010001234567890510251231" "BLOCK").segments =
      [⟨"01", "00012345678905", none, false⟩, ⟨"10", "251231", none, false⟩] ∧
    (parseGs1 "010001234567890510251231" "LOOKAHEAD").segments =
      [⟨"01", "00012345678905", none, false⟩, ⟨"10", "251231", none, false⟩] ∧
    (parseGs1 "010001234567890510ABC17251231" "BLOCK").meta.missing_gs_detected = true ∧
    (parseGs1 "010001234567890510ABC17251231" "BLOCK").meta.missing_gs_fields = ["10"] ∧
    (parseGs1 "010001234567890510ABC17251231" "LOOKAHEAD").meta.missing_gs_detected = true ∧
    (parseGs1 "010001234567890510ABC17251231" "LOOKAHEAD").meta.missing_gs_fields = ["10"] := by
  decide

/-- C2: replaying an idempotency key whose stored record carries a
non-empty request hash either rejects with `IDEMPOTENCY_CONFLICT` (hash
mismatch) or returns the stored response verbatim (hash match), in both
cases leaving the store untouched and running no computation; and
`putIdemRecord` on an existing key is a no-op (write-once).  The stored
hashes produced by the handlers are sha256 hex strings, hence never
empty. -/
theorem parse_validate_idempotency {α : Type} (store : List (IdemRecord α))
    (key h h2 : String) (rec : IdemRecord α) (compute r2 : α)
    (hget : getIdemRecord store key = some rec) (hhash : rec.request_hash ≠ "") :
    parseValidateHandler store key h compute =
      (if rec.request_hash ≠ h then ⟨.error "IDEMPOTENCY_CONFLICT", store, false⟩
       else ⟨.ok rec.response, store, false⟩) ∧
    putIdemRecord store key h2 r2 = store := by
  constructor
  · unfold parseValidateHandler
    rw [hget]
    by_cases hh : rec.request_hash = h
    · simp [hh]
    · simp [hh, hhash]
  · unfold putIdemRecord
    simp [hget]

/-- C2 witness: a concrete store with one record under key `"k"`. -/
theorem parse_validate_idempotency_witness :
    getIdemRecord [IdemRecord.mk "k" "h1" (5 : Nat)] "k" = some (IdemRecord.mk "k" "h1" 5) ∧
    (IdemRecord.mk "k" "h1" (5 : Nat)).request_hash ≠ "" ∧
    (parseValidateHandler [IdemRecord.mk "k" "h1" (5 : Nat)] "k" "h2" 6 =
      (if (IdemRecord.mk "k" "h1" (5 : Nat)).request_hash ≠ "h2" then
        ⟨.error "IDEMPOTENCY_CONFLICT", [IdemRecord.mk "k" "h1" (5 : Nat)], false⟩
       else ⟨.ok (IdemRecord.mk "k" "h1" (5 : Nat)).response, [IdemRecord.mk "k" "h1" (5 : Nat)], false⟩) ∧
     putIdemRecord [IdemRecord.mk "k" "h1" (5 : Nat)] "k" "h3" 7 = [IdemRecord.mk "k" "h1" (5 : Nat)]) :=
  ⟨by decide, by decide,
   parse_validate_idempotency _ "k" "h2" "h3" _ 6 7 (by decide) (by decide)⟩

/-- C3: a commit for a business key that already has a ledger row returns
that row annotated `dedupe="BUSINESS_KEY"` immediately, with no
idempotency lookup, no policy evaluation and no new result; a later
insert that hits the unique business-key index returns the concurrent
winner annotated `dedupe="UNIQUE_INDEX"` instead of an error; and the
insert step keeps at most one ledger row per business key. -/
theorem commit_business_key_dedupe {α : Type} (ledger ledger2 ledger3 : List (CommitRow α))
    (store : List (IdemRecord α)) (sid pi key h status : String) (resp : α)
    (row row3 : CommitRow α) (existing winner : CommitRow α)
    (hfind : ledgerFind ledger sid pi = some existing)
    (hwin : ledgerFind ledger2 row.scan_id row.posting_intent = some winner)
    (hcount : (ledger3.filter (fun r =>
        r.scan_id = row3.scan_id ∧ r.posting_intent = row3.posting_intent)).length ≤ 1) :
    commitHandler ledger store sid pi key h resp status =
      ⟨.ok ⟨existing.response, some "BUSINESS_KEY"⟩, ledger, store, false⟩ ∧
    commitInsert ledger2 row = (.ok ⟨winner.response, some "UNIQUE_INDEX"⟩, ledger2) ∧
    ((commitInsert ledger3 row3).2.filter (fun r =>
        r.scan_id = row3.scan_id ∧ r.posting_intent = row3.posting_intent)).length ≤ 1 := by
  refine ⟨?_, ?_, ?_⟩
  · unfold commitHandler
    rw [hfind]
  · unfold commitInsert
    rw [hwin]
    simp
  · cases hf : ledgerFind ledger3 row3.scan_id row3.posting_intent with
    | some w =>
        have he : commitInsert ledger3 row3 = (.ok ⟨w.response, some "UNIQUE_INDEX"⟩, ledger3) := by
          unfold commitInsert
          rw [hf]
          simp
        rw [he]
        exact hcount
    | none =>
        have hnil : ledger3.filter (fun r =>
            r.scan_id = row3.scan_id ∧ r.posting_intent = row3.posting_intent) = [] := by
          by_contra hne
          have := List.getLast?_isSome.mpr hne
          rw [show (ledger3.filter (fun r =>
              r.scan_id = row3.scan_id ∧ r.posting_intent = row3.posting_intent)).getLast? =
            ledgerFind ledger3 row3.scan_id row3.posting_intent from rfl, hf] at this
          simp at this
        have he : commitInsert ledger3 row3 = (.ok ⟨row3.response, none⟩, ledger3 ++ [row3]) := by
          unfold commitInsert
          rw [hf]
          simp
        rw [he, List.filter_append, hnil]
        simp

/-- C3 witness: a one-row ledger hit on the business key, a race-winner
read-back, and a count-preserving insert. -/
theorem commit_business_key_dedupe_witness :
    ledgerFind [CommitRow.mk "S1" "PURCHASE_RECEIPT" "k0" "h0" "SIMULATED_OK" (7 : Nat)]
        "S1" "PURCHASE_RECEIPT" =
      some (CommitRow.mk "S1" "PURCHASE_RECEIPT" "k0" "h0" "SIMULATED_OK" 7) ∧
    ledgerFind [CommitRow.mk "S2" "TRANSFER_RECEIPT" "ka" "ha" "SIMULATED_OK" (3 : Nat)]
        (CommitRow.mk "S2" "TRANSFER_RECEIPT" "kb" "hb" "SIMULATED_OK" (4 : Nat)).scan_id
        (CommitRow.mk "S2" "TRANSFER_RECEIPT" "kb" "hb" "SIMULATED_OK" (4 : Nat)).posting_intent =
      some (CommitRow.mk "S2" "TRANSFER_RECEIPT" "ka" "ha" "SIMULATED_OK" 3) ∧
    (([] : List (CommitRow Nat)).filter (fun r =>
        r.scan_id = (CommitRow.mk "S3" "PURCHASE_RECEIPT" "kc" "hc" "SIMULATED_OK" (9 : Nat)).scan_id ∧
        r.posting_intent = (CommitRow.mk "S3" "PURCHASE_RECEIPT" "kc" "hc" "SIMULATED_OK" (9 : Nat)).posting_intent)).length ≤ 1 ∧
    (commitHandler [CommitRow.mk "S1" "PURCHASE_RECEIPT" "k0" "h0" "SIMULATED_OK" (7 : Nat)] []
        "S1" "PURCHASE_RECEIPT" "k1" "h1" 9 "SIMULATED_OK" =
      ⟨.ok ⟨(CommitRow.mk "S1" "PURCHASE_RECEIPT" "k0" "h0" "SIMULATED_OK" (7 : Nat)).response, some "BUSINESS_KEY"⟩,
       [CommitRow.mk "S1" "PURCHASE_RECEIPT" "k0" "h0" "SIMULATED_OK" 7], [], false⟩ ∧
     commitInsert [CommitRow.mk "S2" "TRANSFER_RECEIPT" "ka" "ha" "SIMULATED_OK" (3 : Nat)]
        (CommitRow.mk "S2" "TRANSFER_RECEIPT" "kb" "hb" "SIMULATED_OK" 4) =
      (.ok ⟨(CommitRow.mk "S2" "TRANSFER_RECEIPT" "ka" "ha" "SIMULATED_OK" (3 : Nat)).response, some "UNIQUE_INDEX"⟩,
       [CommitRow.mk "S2" "TRANSFER_RECEIPT" "ka" "ha" "SIMULATED_OK" 3]) ∧
     ((commitInsert ([] : List (CommitRow Nat))
          (CommitRow.mk "S3" "PURCHASE_RECEIPT" "kc" "hc" "SIMULATED_OK" 9)).2.filter (fun r =>
        r.scan_id = (CommitRow.mk "S3" "PURCHASE_RECEIPT" "kc" "hc" "SIMULATED_OK" (9 : Nat)).scan_id ∧
        r.posting_intent = (CommitRow.mk "S3" "PURCHASE_RECEIPT" "kc" "hc" "SIMULATED_OK" (9 : Nat)).posting_intent)).length ≤ 1) :=
  ⟨by decide, by decide, by decide,
   commit_business_key_dedupe _ _ _ _ "S1" "PURCHASE_RECEIPT" "k1" "h1" "SIMULATED_OK" 9
     _ _ _ _ (by decide) (by decide) (by decide)⟩

/-- C4 counterexample: a writer that lost the `putIfAbsent` race still
answers with its locally computed response (here `2`), while the store
keeps the winner's record (response `1`), so the returned response does
not equal the stored one. -/
theorem pv_race_returns_local_counterexample :
    (pvCompute [IdemRecord.mk "k" "h1" (1 : Nat)] "k" "h2" 2).result = .ok 2 ∧
    getIdemRecord (pvCompute [IdemRecord.mk "k" "h1" (1 : Nat)] "k" "h2" 2).store "k" =
      some (IdemRecord.mk "k" "h1" 1) ∧
    (2 : Nat) ≠ 1 := by
  decide

/-- C4 (amended): when the idempotency key was absent at lookup but a
competing writer has since stored a record, the handler's compute-store
tail leaves the winner's record in place (the store is write-once) but
answers with the locally computed response, not the stored one. -/
theorem pv_race_returns_local {α : Type} (store : List (IdemRecord α)) (key h : String)
    (compute : α) (rec : IdemRecord α) (hget : getIdemRecord store key = some rec) :
    (pvCompute store key h compute).result = .ok compute ∧
    (pvCompute store key h compute).store = store ∧
    getIdemRecord (pvCompute store key h compute).store key = some rec := by
  unfold pvCompute putIdemRecord
  simp [hget]

/-- C4 witness: the amended statement at a concrete raced store. -/
theorem pv_race_returns_local_witness :
    getIdemRecord [IdemRecord.mk "k" "h1" (1 : Nat)] "k" = some (IdemRecord.mk "k" "h1" 1) ∧
    ((pvCompute [IdemRecord.mk "k" "h1" (1 : Nat)] "k" "h2" 2).result = .ok 2 ∧
     (pvCompute [IdemRecord.mk "k" "h1" (1 : Nat)] "k" "h2" 2).store = [IdemRecord.mk "k" "h1" 1] ∧
     getIdemRecord (pvCompute [IdemRecord.mk "k" "h1" (1 : Nat)] "k" "h2" 2).store "k" =
       some (IdemRecord.mk "k" "h1" 1)) :=
  ⟨by decide, pv_race_returns_local _ "k" "h2" 2 _ (by decide)⟩

theorem downgradeCheck_not_block (c : Check) :
    ((downgradeCheck c).severity = "BLOCK") = False := by
  unfold downgradeCheck
  by_cases h : c.severity = "BLOCK" <;> simp [h]

theorem map_downgrade_any_block (cs : List Check) :
    (cs.map downgradeCheck).any (fun c => c.severity = "BLOCK") = false := by
  rw [List.any_map]
  rw [List.any_eq_false]
  intro c _
  simp [downgradeCheck_not_block]

theorem decide_true_eq (pr : ParseResult) (policy : Policy) (nowMs : Int) :
    decide pr policy true nowMs =
      { decision := if aggregateDecision (decideChecks pr policy nowMs) = "BLOCK" then "WARN"
                    else aggregateDecision (decideChecks pr policy nowMs),
        checks := (decideChecks pr policy nowMs).map downgradeCheck,
        meta := { used_lookahead := pr.meta.used_lookahead,
                  missing_gs_detected := pr.meta.missing_gs_detected,
                  missing_gs_fields := pr.meta.missing_gs_fields,
                  no_block := some true,
                  would_block := some ((decideChecks pr policy nowMs).any (fun c => c.severity = "BLOCK")),
                  would_block_codes := some
                    (((decideChecks pr policy nowMs).filter (fun c => c.severity = "BLOCK")).map
                      (fun c => c.code)) } } := rfl

theorem decide_false_eq (pr : ParseResult) (policy : Policy) (nowMs : Int) :
    decide pr policy false nowMs =
      { decision := aggregateDecision (decideChecks pr policy nowMs),
        checks := decideChecks pr policy nowMs,
        meta := { used_lookahead := pr.meta.used_lookahead,
                  missing_gs_detected := pr.meta.missing_gs_detected,
                  missing_gs_fields := pr.meta.missing_gs_fields } } := rfl

/-- C1: with the global downgrade ("never hard-fail") mode on, `decide`
returns the base checks with every BLOCK check rewritten to WARN plus
`originally="BLOCK"` (`downgradeCheck`), an aggregate decision that is
the max-severity rule recomputed over the rewritten checks and is never
BLOCK, and the parse meta extended with `no_block=true`, `would_block`
(whether any check was originally BLOCK) and `would_block_codes` (the
codes of exactly the originally-BLOCK checks). -/
theorem decide_global_downgrade (pr : ParseResult) (policy : Policy) (nowMs : Int) :
    (decide pr policy true nowMs).checks =
      ((decide pr policy false nowMs).checks.map downgradeCheck) ∧
    (decide pr policy true nowMs).decision =
      aggregateDecision (decide pr policy true nowMs).checks ∧
    (decide pr policy true nowMs).decision ≠ "BLOCK" ∧
    ((decide pr policy true nowMs).checks.any (fun c => c.severity = "BLOCK")) = false ∧
    (decide pr policy true nowMs).meta.no_block = some true ∧
    (decide pr policy true nowMs).meta.would_block =
      some ((decide pr policy false nowMs).checks.any (fun c => c.severity = "BLOCK")) ∧
    (decide pr policy true nowMs).meta.would_block_codes =
      some (((decide pr policy false nowMs).checks.filter (fun c => c.severity = "BLOCK")).map
        (fun c => c.code)) ∧
    (decide pr policy true nowMs).meta.missing_gs_detected = pr.meta.missing_gs_detected ∧
    (decide pr policy true nowMs).meta.missing_gs_fields = pr.meta.missing_gs_fields ∧
    (decide pr policy true nowMs).meta.used_lookahead = pr.meta.used_lookahead := by
  rw [decide_true_eq, decide_false_eq]
  have hmapped := map_downgrade_any_block (decideChecks pr policy nowMs)
  have hagg : aggregateDecision ((decideChecks pr policy nowMs).map downgradeCheck) =
      if (decideChecks pr policy nowMs).length ≠ 0 then "WARN" else "PASS" := by
    unfold aggregateDecision
    rw [hmapped]
    simp
  refine ⟨rfl, ?_, ?_, hmapped, rfl, rfl, rfl, rfl, rfl, rfl⟩
  · show (if aggregateDecision (decideChecks pr policy nowMs) = "BLOCK" then "WARN"
        else aggregateDecision (decideChecks pr policy nowMs)) =
      aggregateDecision ((decideChecks pr policy nowMs).map downgradeCheck)
    rw [hagg]
    unfold aggregateDecision
    by_cases hb : (decideChecks pr policy nowMs).any (fun c => c.severity = "BLOCK") = true
    · obtain ⟨c, hc, -⟩ := List.any_eq_true.mp hb
      have hne : (decideChecks pr policy nowMs).length ≠ 0 := by
        have := List.ne_nil_of_mem hc
        simpa [List.length_eq_zero] using this
      simp [hb, hne]
    · rw [Bool.not_eq_true] at hb
      rw [hb]
      by_cases hl : (decideChecks pr policy nowMs).length ≠ 0 <;> simp [hl]
  · show (if aggregateDecision (decideChecks pr policy nowMs) = "BLOCK" then "WARN"
        else aggregateDecision (decideChecks pr policy nowMs)) ≠ "BLOCK"
    unfold aggregateDecision
    by_cases hb : (decideChecks pr policy nowMs).any (fun c => c.severity = "BLOCK") = true
    · simp [hb]
    · rw [Bool.not_eq_true] at hb
      rw [hb]
      by_cases hl : (decideChecks pr policy nowMs).length ≠ 0 <;> simp [hl]

theorem parseLoop_meta_invariant (mode : String) :
    ∀ (fuel : Nat) (l : List Char),
      ((parseLoop mode fuel l).2.missing_gs_detected =
        !(parseLoop mode fuel l).2.missing_gs_fields.isEmpty) ∧
      ((parseLoop mode fuel l).2.used_lookahead =
        ((parseLoop mode fuel l).2.missing_gs_detected && decide (mode = "LOOKAHEAD"))) := by
  intro fuel
  induction fuel with
  | zero =>
      intro l
      constructor <;> rfl
  | succ n ih =>
      intro l
      cases l with
      | nil => constructor <;> rfl
      | cons c rest =>
          simp only [parseLoop]
          split
          · exact ih _
          · split
            · exact ih _
            · split
              · exact ih _
              · split
                · rcases hscan : scanVar ((c :: rest).drop 2) 0 with j | j
                  · simp only [hscan]
                    exact ih _
                  · simp only [hscan]
                    obtain ⟨ih1, ih2⟩ := ih (((c :: rest).drop 2).drop j)
                    refine ⟨by simp, ?_⟩
                    show (decide (mode = "LOOKAHEAD") ||
                        (parseLoop mode n (((c :: rest).drop 2).drop j)).2.used_lookahead) =
                      (true && decide (mode = "LOOKAHEAD"))
                    rw [ih2]
                    cases hdec : decide (mode = "LOOKAHEAD") <;> simp
                  · constructor <;> rfl
                · constructor <;> rfl

/-- C10: for every normalized input and mode, the segmenter's ParseMeta
is coherent: `missing_gs_detected` holds exactly when
`missing_gs_fields` is non-empty, and `used_lookahead` equals
`missing_gs_detected && (mode = LOOKAHEAD)` — so lookahead is only
recorded when a missing GS was detected in LOOKAHEAD mode, and in BLOCK
mode `used_lookahead` is always false. -/
theorem parseGs1_meta_coherent (norm mode : String) :
    ((parseGs1 norm mode).meta.missing_gs_detected =
      !(parseGs1 norm mode).meta.missing_gs_fields.isEmpty) ∧
    ((parseGs1 norm mode).meta.used_lookahead =
      ((parseGs1 norm mode).meta.missing_gs_detected && decide (mode = "LOOKAHEAD"))) := by
  simp only [parseGs1]
  split
  · constructor <;> rfl
  · exact parseLoop_meta_invariant mode _ _

theorem char_digit_facts (k : Nat) (h : k ≤ 9) :
    (Char.ofNat (48 + k)).toNat = 48 + k ∧ (Char.ofNat (48 + k)).isDigit = true := by
  interval_cases k <;> exact ⟨by decide, by decide⟩

theorem num2_pad2 (n : Nat) (h : n ≤ 99) : num2 (pad2 n) = n := by
  obtain ⟨e1, -⟩ := char_digit_facts (n / 10) (by omega)
  obtain ⟨e2, -⟩ := char_digit_facts (n % 10) (by omega)
  simp only [num2, pad2, List.foldl, e1, e2]
  omega

theorem pad2_all_digit (n : Nat) (h : n ≤ 99) : (pad2 n).all Char.isDigit = true := by
  obtain ⟨-, e1⟩ := char_digit_facts (n / 10) (by omega)
  obtain ⟨-, e2⟩ := char_digit_facts (n % 10) (by omega)
  simp [pad2, e1, e2]

theorem lastDayOfMonth_pos (y m : Nat) : 1 ≤ lastDayOfMonth y m := by
  unfold lastDayOfMonth
  split
  · split <;> omega
  · split <;> omega

/-- C8: for every six-digit AI 17 value `YYMMDD`, the year resolves to
`2000+YY`; a month outside 1–12 yields `EXPIRY_MONTH_INVALID`; day `00`
stands for the last day of the month; and a day beyond the month's
actual (UTC-calendar) day count yields `EXPIRY_DAY_INVALID` — in
particular `"240230"` is rejected as `EXPIRY_DAY_INVALID`, `"240229"`
is the valid 2024-02-29 (leap year), and `"240200"` resolves to
2024-02-29. -/
theorem parseExpiry_resolution (yy mm dd : Nat) (hy : yy ≤ 99) (hm : mm ≤ 99) (hd : dd ≤ 99) :
    parseExpiryYYMMDD (mkYYMMDD yy mm dd) =
      (if mm < 1 ∨ 12 < mm then .err "EXPIRY_MONTH_INVALID"
       else if lastDayOfMonth (2000 + yy) mm <
           (if dd = 0 then lastDayOfMonth (2000 + yy) mm else dd) then
         .err "EXPIRY_DAY_INVALID"
       else
         .ok (isoOf (2000 + yy) mm (if dd = 0 then lastDayOfMonth (2000 + yy) mm else dd))
           (2000 + yy) mm (if dd = 0 then lastDayOfMonth (2000 + yy) mm else dd)) := by
  have hlen : (mkYYMMDD yy mm dd).data.length = 6 := by
    simp [mkYYMMDD, pad2]
  have hdig : (mkYYMMDD yy mm dd).data.all Char.isDigit = true := by
    show ((pad2 yy ++ (pad2 mm ++ pad2 dd)).all Char.isDigit) = true
    simp only [List.all_append, Bool.and_eq_true]
    exact ⟨pad2_all_digit yy hy, pad2_all_digit mm hm, pad2_all_digit dd hd⟩
  have e_yy : num2 ((mkYYMMDD yy mm dd).data.take 2) = yy := by
    rw [show (mkYYMMDD yy mm dd).data.take 2 = pad2 yy from rfl]
    exact num2_pad2 yy hy
  have e_mm : num2 (((mkYYMMDD yy mm dd).data.drop 2).take 2) = mm := by
    rw [show ((mkYYMMDD yy mm dd).data.drop 2).take 2 = pad2 mm from rfl]
    exact num2_pad2 mm hm
  have e_dd : num2 (((mkYYMMDD yy mm dd).data.drop 4).take 2) = dd := by
    rw [show ((mkYYMMDD yy mm dd).data.drop 4).take 2 = pad2 dd from rfl]
    exact num2_pad2 dd hd
  simp only [parseExpiryYYMMDD]
  rw [if_pos ⟨hlen, hdig⟩, e_yy, e_mm, e_dd]
  by_cases hmonth : mm < 1 ∨ 12 < mm
  · rw [if_pos hmonth, if_pos hmonth]
  · have hday1 : ¬ ((if dd = 0 then lastDayOfMonth (2000 + yy) mm else dd) < 1) := by
      have := lastDayOfMonth_pos (2000 + yy) mm
      by_cases h0 : dd = 0
      · rw [if_pos h0]
        omega
      · rw [if_neg h0]
        omega
    by_cases hld : lastDayOfMonth (2000 + yy) mm <
        (if dd = 0 then lastDayOfMonth (2000 + yy) mm else dd) <;>
      simp [hmonth, hday1, hld]

/-- C8 witness: the three concrete vectors of the claim, obtained from
`parseExpiry_resolution` at `(24,2,30)`, `(24,2,29)` and `(24,2,0)`. -/
theorem parseExpiry_resolution_witness :
    parseExpiryYYMMDD (mkYYMMDD 24 2 30) = .err "EXPIRY_DAY_INVALID" ∧
    parseExpiryYYMMDD (mkYYMMDD 24 2 29) = .ok "2024-02-29" 2024 2 29 ∧
    parseExpiryYYMMDD (mkYYMMDD 24 2 0) = .ok "2024-02-29" 2024 2 29 := by
  refine ⟨?_, ?_, ?_⟩
  · rw [parseExpiry_resolution 24 2 30 (by decide) (by decide) (by decide)]
    decide
  · rw [parseExpiry_resolution 24 2 29 (by decide) (by decide) (by decide)]
    decide
  · rw [parseExpiry_resolution 24 2 0 (by decide) (by decide) (by decide)]
    decide

theorem gtinTo14_eq_specTo14 (v : String) : gtinTo14 v = specTo14 v := by
  unfold gtinTo14 specTo14
  by_cases h14 : v.length = 14
  · rw [if_pos h14, if_neg (by omega)]
    rw [show v.length - 14 = 0 from by omega, List.drop_zero]
  · rw [if_neg h14]

theorem sum_map_enumFrom_succ (l : List Nat) (f : Nat × Nat → Nat) :
    ∀ k, ((List.enumFrom (k + 1) l).map f).sum =
      ((List.enumFrom k l).map (fun pd => f (pd.1 + 1, pd.2))).sum := by
  induction l with
  | nil => intro k; rfl
  | cons a l ih =>
      intro k
      rw [List.enumFrom_cons, List.enumFrom_cons, List.map_cons, List.map_cons,
        List.sum_cons, List.sum_cons, ih (k + 1)]

theorem altSum_spec (l : List Nat) :
    altSum l 3 = ((l.enum.map (fun pd => pd.2 * (if pd.1 % 2 = 0 then 3 else 1))).sum) ∧
    altSum l 1 = ((l.enum.map (fun pd => pd.2 * (if pd.1 % 2 = 0 then 1 else 3))).sum) := by
  induction l with
  | nil => constructor <;> rfl
  | cons a l ih =>
      obtain ⟨ih3, ih1⟩ := ih
      have hshift : ∀ (w w' : Nat),
          ((List.enumFrom 1 l).map (fun pd => pd.2 * (if pd.1 % 2 = 0 then w else w'))).sum =
            ((l.enum.map (fun pd => pd.2 * (if pd.1 % 2 = 0 then w' else w))).sum) := by
        intro w w'
        rw [show (1 : Nat) = 0 + 1 from rfl,
          sum_map_enumFrom_succ l (fun pd => pd.2 * (if pd.1 % 2 = 0 then w else w')) 0]
        show ((List.enumFrom 0 l).map _).sum = ((List.enumFrom 0 l).map _).sum
        congr 1
        apply List.map_congr_left
        intro pd _
        rcases Nat.mod_two_eq_zero_or_one pd.1 with h | h <;> simp [h, Nat.add_mod]
      constructor
      · show a * 3 + altSum l (if (3 : Nat) = 3 then 1 else 3) = _
        rw [if_pos rfl, List.enum_cons, List.map_cons, List.sum_cons, ih1, hshift 3 1]
        simp
      · show a * 1 + altSum l (if (1 : Nat) = 3 then 1 else 3) = _
        rw [if_neg (by omega), List.enum_cons, List.map_cons, List.sum_cons, ih3, hshift 1 3]
        simp

theorem specTo14_all_digit (v : String) (hdig : v.data.all Char.isDigit = true) :
    (specTo14 v).data.all Char.isDigit = true := by
  unfold specTo14
  split
  · show (List.replicate (14 - v.length) '0' ++ v.data).all Char.isDigit = true
    rw [List.all_append, Bool.and_eq_true]
    refine ⟨?_, hdig⟩
    rw [List.all_eq_true]
    intro c hc
    rw [List.eq_of_mem_replicate hc]
    decide
  · show ((v.data.drop (v.length - 14)).all Char.isDigit) = true
    rw [List.all_eq_true] at hdig ⊢
    intro c hc
    exact hdig c (List.mem_of_mem_drop hc)

theorem specTo14_length (v : String) : (specTo14 v).data.length = 14 := by
  unfold specTo14
  split
  · show (List.replicate (14 - v.length) '0' ++ v.data).length = 14
    have hv : v.data.length = v.length := rfl
    simp only [List.length_append, List.length_replicate]
    omega
  · show ((v.data.drop (v.length - 14)).length) = 14
    have hv : v.data.length = v.length := rfl
    simp only [List.length_drop]
    omega

theorem isValidGtin14_eq_spec (v : String) (hdig : v.data.all Char.isDigit = true) :
    isValidGtin14 (gtinTo14 v) = specGtinOk v := by
  rw [gtinTo14_eq_specTo14]
  have hfilter : (specTo14 v).data.filter Char.isDigit = (specTo14 v).data :=
    List.filter_eq_self.mpr (by
      have := specTo14_all_digit v hdig
      rw [List.all_eq_true] at this
      exact this)
  unfold isValidGtin14 specGtinOk
  rw [hfilter, if_pos (specTo14_length v)]
  show Decidable.decide ((10 -
        (altSum (((specTo14 v).data.map (fun c => c.toNat - 48)).take 13).reverse 3) % 10) % 10 =
      ((specTo14 v).data.map (fun c => c.toNat - 48)).getD 13 0) =
    Decidable.decide ((10 -
        ((((specTo14 v).data.map (fun c => c.toNat - 48)).take 13).reverse.enum.map
          (fun pd => pd.2 * if pd.1 % 2 = 0 then 3 else 1)).sum % 10) % 10 =
      ((specTo14 v).data.map (fun c => c.toNat - 48)).getD 13 0)
  rw [(altSum_spec (((specTo14 v).data.map (fun c => c.toNat - 48)).take 13).reverse).1]

theorem any_code_false_of_ne {l : List Check} {X : String} (h : ∀ c ∈ l, c.code ≠ X) :
    l.any (fun c => c.code = X) = false := by
  rw [List.any_eq_false]
  intro c hc
  simpa using h c hc

theorem mem_checkNumeric {parsed : List Segment} {policy : Policy} :
    ∀ c ∈ checkNumeric parsed policy, c.code = "NUMERIC_GTIN_NOT_ALLOWED" ∧ c.severity = "BLOCK" := by
  unfold checkNumeric
  split
  · intro c hc
    rw [List.mem_singleton] at hc
    subst hc
    exact ⟨rfl, rfl⟩
  · intro c hc
    cases hc

theorem mem_checkMissingGs {meta : ParseMeta} {policy : Policy} :
    ∀ c ∈ checkMissingGs meta policy, c.code = "MISSING_GS_SEPARATOR" := by
  unfold checkMissingGs
  split
  · intro c hc
    rw [List.mem_singleton] at hc
    subst hc
    rfl
  · intro c hc
    cases hc

theorem mem_checkReq01 {parsed : List Segment} :
    ∀ c ∈ checkReq01 parsed, c.code = "REQ_AI_01_MISSING" ∧ c.severity = "BLOCK" := by
  unfold checkReq01
  split
  · intro c hc
    cases hc
  · intro c hc
    rw [List.mem_singleton] at hc
    subst hc
    exact ⟨rfl, rfl⟩

theorem mem_checkGtin {parsed : List Segment} {policy : Policy} :
    ∀ c ∈ checkGtin parsed policy, c.code = "GTIN_CHECKDIGIT_INVALID" ∧ c.severity = "BLOCK" := by
  intro c hc
  simp only [checkGtin] at hc
  split at hc
  · split at hc
    · cases hc
    · rw [List.mem_singleton] at hc
      subst hc
      exact ⟨rfl, rfl⟩
  · cases hc

theorem mem_checkReq17 {parsed : List Segment} {policy : Policy} :
    ∀ c ∈ checkReq17 parsed policy, c.code = "REQ_AI_17_MISSING" ∧ c.severity = "BLOCK" := by
  unfold checkReq17
  split
  · intro c hc
    rw [List.mem_singleton] at hc
    subst hc
    exact ⟨rfl, rfl⟩
  · intro c hc
    cases hc

theorem parseExpiry_err_codes {v : String} {e : String} (h : parseExpiryYYMMDD v = .err e) :
    e = "EXPIRY_FORMAT_INVALID" ∨ e = "EXPIRY_MONTH_INVALID" ∨ e = "EXPIRY_DAY_INVALID" := by
  simp only [parseExpiryYYMMDD] at h
  split at h
  · split at h
    · injection h with he
      subst he
      decide
    · split at h <;> split at h <;>
        first
          | (injection h with he; subst he; decide)
          | (exact absurd h (by simp))
  · injection h with he
    subst he
    decide

theorem mem_checkExpiryOk {policy : Policy} {nowMs : Int} {iso : String} {y m d : Nat} :
    ∀ c ∈ checkExpiryOk policy nowMs iso y m d,
      c.code = "EXPIRY_EXPIRED" ∨ c.code = "EXPIRY_NEAR" := by
  intro c hc
  simp only [checkExpiryOk] at hc
  split at hc
  · rw [List.mem_singleton] at hc
    subst hc
    exact Or.inl rfl
  · split at hc
    · rw [List.mem_singleton] at hc
      subst hc
      exact Or.inr rfl
    · cases hc

theorem mem_checkExpiry {parsed : List Segment} {policy : Policy} {nowMs : Int} :
    ∀ c ∈ checkExpiry parsed policy nowMs,
      c.code = "EXPIRY_FORMAT_INVALID" ∨ c.code = "EXPIRY_MONTH_INVALID" ∨
      c.code = "EXPIRY_DAY_INVALID" ∨ c.code = "EXPIRY_EXPIRED" ∨ c.code = "EXPIRY_NEAR" := by
  intro c hc
  simp only [checkExpiry] at hc
  split at hc
  · split at hc
    · next e hpe =>
        rw [List.mem_singleton] at hc
        subst hc
        rcases parseExpiry_err_codes hpe with h | h | h
        · exact Or.inl h
        · exact Or.inr (Or.inl h)
        · exact Or.inr (Or.inr (Or.inl h))
    · next iso y m d hpe =>
        rcases mem_checkExpiryOk c hc with h | h
        · exact Or.inr (Or.inr (Or.inr (Or.inl h)))
        · exact Or.inr (Or.inr (Or.inr (Or.inr h)))
  · cases hc

theorem mem_checkTracking {parsed : List Segment} {policy : Policy} :
    ∀ c ∈ checkTracking parsed policy,
      (c.code = "REQ_AI_10_MISSING" ∨ c.code = "REQ_AI_21_MISSING") ∧ c.severity = "BLOCK" := by
  intro c hc
  simp only [checkTracking] at hc
  rcases List.mem_append.mp hc with h | h
  · split at h
    · rw [List.mem_singleton] at h
      subst h
      exact ⟨Or.inl rfl, rfl⟩
    · cases h
  · split at h
    · rw [List.mem_singleton] at h
      subst h
      exact ⟨Or.inr rfl, rfl⟩
    · cases h

theorem mem_checkUnknown {parsed : List Segment} :
    ∀ c ∈ checkUnknown parsed, c.code = "UNKNOWN_PAYLOAD" ∧ c.severity = "WARN" := by
  unfold checkUnknown
  split
  · intro c hc
    rw [List.mem_singleton] at hc
    subst hc
    exact ⟨rfl, rfl⟩
  · intro c hc
    cases hc

theorem checkUnknown_any {parsed : List Segment} :
    (checkUnknown parsed).any (fun c => c.code = "UNKNOWN_PAYLOAD") =
      parsed.any (fun s => s.ai = "??") := by
  unfold checkUnknown
  split
  · next h =>
      rw [h]
      decide
  · next h =>
      rw [Bool.not_eq_true] at h
      rw [h]
      rfl

theorem checkGtin_any {parsed : List Segment} {policy : Policy}
    (henf : policy.enforce_gtin_checkdigit ≠ some false) {v : String}
    (hmap : mapGet parsed "01" = some v) (hne : v ≠ "") :
    (checkGtin parsed policy).any (fun c => c.code = "GTIN_CHECKDIGIT_INVALID") =
      !isValidGtin14 (gtinTo14 v) := by
  simp only [checkGtin, hmap, Option.getD_some]
  rw [if_pos ⟨henf, by simp [truthyS, hne]⟩]
  by_cases hv : isValidGtin14 (gtinTo14 v) = true
  · rw [if_pos hv, hv]
    rfl
  · rw [Bool.not_eq_true] at hv
    rw [if_neg (by simp [hv]), hv]
    simp

/-- C7: whenever AI 01 carries a (non-empty, all-digit) value and the
policy does not disable `enforce_gtin_checkdigit`, `decide` emits the
BLOCK check `GTIN_CHECKDIGIT_INVALID` exactly when the value, normalized
to 14 digits (left-zero-pad / rightmost-14), fails the spec's mod-10
rule with weights 3,1,3,1,… from the rightmost non-check digit and check
digit `(10 − (sum mod 10)) mod 10` (`specGtinOk`). -/
theorem decide_gtin_checkdigit (pr : ParseResult) (policy : Policy) (nowMs : Int) (v : String)
    (henf : policy.enforce_gtin_checkdigit ≠ some false)
    (hmap : mapGet pr.segments "01" = some v) (hne : v ≠ "")
    (hdig : v.data.all Char.isDigit = true) :
    ((decide pr policy false nowMs).checks.any (fun c => c.code = "GTIN_CHECKDIGIT_INVALID"))
      = !specGtinOk v ∧
    ((decide pr policy false nowMs).checks.filter
        (fun c => c.code = "GTIN_CHECKDIGIT_INVALID")).all
      (fun c => c.severity = "BLOCK") = true := by
  rw [decide_false_eq]
  constructor
  · show (decideChecks pr policy nowMs).any (fun c => c.code = "GTIN_CHECKDIGIT_INVALID") =
      !specGtinOk v
    unfold decideChecks
    simp only [List.any_append]
    rw [any_code_false_of_ne (fun c hc => by
          rw [(mem_checkNumeric c hc).1]; decide),
        any_code_false_of_ne (fun c hc => by
          rw [mem_checkMissingGs c hc]; decide),
        any_code_false_of_ne (fun c hc => by
          rw [(mem_checkReq01 c hc).1]; decide),
        checkGtin_any henf hmap hne,
        any_code_false_of_ne (fun c hc => by
          rw [(mem_checkReq17 c hc).1]; decide),
        any_code_false_of_ne (fun c hc => by
          rcases mem_checkExpiry c hc with h | h | h | h | h <;> rw [h] <;> decide),
        any_code_false_of_ne (fun c hc => by
          rcases (mem_checkTracking c hc).1 with h | h <;> rw [h] <;> decide),
        any_code_false_of_ne (fun c hc => by
          rw [(mem_checkUnknown c hc).1]; decide),
        isValidGtin14_eq_spec v hdig]
    simp
  · show ((decideChecks pr policy nowMs).filter
        (fun c => c.code = "GTIN_CHECKDIGIT_INVALID")).all
      (fun c => c.severity = "BLOCK") = true
    rw [List.all_eq_true]
    intro c hc
    rw [List.mem_filter] at hc
    obtain ⟨hcm, hcode⟩ := hc
    have hcode' : c.code = "GTIN_CHECKDIGIT_INVALID" := by simpa using hcode
    unfold decideChecks at hcm
    rcases List.mem_append.mp hcm with hcm | h
    · rcases List.mem_append.mp hcm with hcm | h
      · rcases List.mem_append.mp hcm with hcm | h
        · rcases List.mem_append.mp hcm with hcm | h
          · rcases List.mem_append.mp hcm with hcm | h
            · rcases List.mem_append.mp hcm with hcm | h
              · rcases List.mem_append.mp hcm with h | h
                · rw [(mem_checkNumeric c h).1] at hcode'
                  exact absurd hcode' (by decide)
                · rw [mem_checkMissingGs c h] at hcode'
                  exact absurd hcode' (by decide)
              · rw [(mem_checkReq01 c h).1] at hcode'
                exact absurd hcode' (by decide)
            · rw [(mem_checkGtin c h).2]
              decide
          · rw [(mem_checkReq17 c h).1] at hcode'
            exact absurd hcode' (by decide)
        · rcases mem_checkExpiry c h with he | he | he | he | he <;>
            (rw [he] at hcode'; exact absurd hcode' (by decide))
      · rcases (mem_checkTracking c h).1 with he | he <;>
          (rw [he] at hcode'; exact absurd hcode' (by decide))
    · rw [(mem_checkUnknown c h).1] at hcode'
      exact absurd hcode' (by decide)

/-- C7 witness: a parse result carrying AI 01 = 00012345678905 under the
default policy; the check digit is valid, so no
`GTIN_CHECKDIGIT_INVALID` check is emitted. -/
theorem decide_gtin_checkdigit_witness :
    (({} : Policy).enforce_gtin_checkdigit ≠ some false) ∧
    mapGet [Segment.mk "01" "00012345678905" none false] "01" = some "00012345678905" ∧
    ("00012345678905" : String) ≠ "" ∧
    ("00012345678905" : String).data.all Char.isDigit = true ∧
    (((decide (ParseResult.mk [Segment.mk "01" "00012345678905" none false] {}) {} false 0).checks.any
        (fun c => c.code = "GTIN_CHECKDIGIT_INVALID")) = !specGtinOk "00012345678905" ∧
     ((decide (ParseResult.mk [Segment.mk "01" "00012345678905" none false] {}) {} false 0).checks.filter
        (fun c => c.code = "GTIN_CHECKDIGIT_INVALID")).all
       (fun c => c.severity = "BLOCK") = true) :=
  ⟨by decide, by decide, by decide, by decide,
   decide_gtin_checkdigit (ParseResult.mk [Segment.mk "01" "00012345678905" none false] {}) {} 0
     "00012345678905" (by decide) (by decide) (by decide) (by decide)⟩

theorem parseLoop_segments_wf (mode : String) :
    ∀ (fuel : Nat) (l : List Char),
      (∀ s ∈ (parseLoop mode fuel l).1,
        s.ai = "01" ∨ s.ai = "17" ∨ s.ai = "00" ∨ s.ai = "10" ∨ s.ai = "21" ∨ s.ai = "??") ∧
      (((parseLoop mode fuel l).1.filter (fun s => s.ai = "??")).length ≤ 1) := by
  intro fuel
  induction fuel with
  | zero =>
      intro l
      refine ⟨?_, ?_⟩
      · intro s hs
        simp [parseLoop] at hs
      · simp [parseLoop]
  | succ n ih =>
      intro l
      cases l with
      | nil =>
          refine ⟨?_, ?_⟩
          · intro s hs
            simp [parseLoop] at hs
          · simp [parseLoop]
      | cons c rest =>
          simp only [parseLoop]
          split
          · refine ⟨?_, ?_⟩
            · intro s hs
              rcases List.mem_cons.mp hs with rfl | hs'
              · exact Or.inl rfl
              · exact (ih _).1 s hs'
            · rw [show (List.filter (fun s => s.ai = "??")
                  (⟨"01", String.mk (((c :: rest).drop 2).take 14), none, false⟩ ::
                    (parseLoop mode n ((c :: rest).drop 16)).1)) =
                  (parseLoop mode n ((c :: rest).drop 16)).1.filter (fun s => s.ai = "??") from by
                simp]
              exact (ih _).2
          · split
            · refine ⟨?_, ?_⟩
              · intro s hs
                rcases List.mem_cons.mp hs with rfl | hs'
                · exact Or.inr (Or.inl rfl)
                · exact (ih _).1 s hs'
              · rw [show (List.filter (fun s => s.ai = "??")
                    (⟨"17", String.mk (((c :: rest).drop 2).take 6), none, false⟩ ::
                      (parseLoop mode n ((c :: rest).drop 8)).1)) =
                    (parseLoop mode n ((c :: rest).drop 8)).1.filter (fun s => s.ai = "??") from by
                  simp]
                exact (ih _).2
            · split
              · refine ⟨?_, ?_⟩
                · intro s hs
                  rcases List.mem_cons.mp hs with rfl | hs'
                  · exact Or.inr (Or.inr (Or.inl rfl))
                  · exact (ih _).1 s hs'
                · rw [show (List.filter (fun s => s.ai = "??")
                      (⟨"00", String.mk (((c :: rest).drop 2).take 18), none, false⟩ ::
                        (parseLoop mode n ((c :: rest).drop 20)).1)) =
                      (parseLoop mode n ((c :: rest).drop 20)).1.filter (fun s => s.ai = "??") from by
                    simp]
                  exact (ih _).2
              · split
                · next hai =>
                    have hne : ({ data := c :: List.take 1 rest } : String) ≠ "??" := by
                      rcases hai with h | h <;>
                        (rw [show c :: List.take 1 rest = List.take 2 (c :: rest) from rfl, h]) <;>
                        decide
                    have hmem : String.mk ((c :: rest).take 2) = "10" ∨
                        String.mk ((c :: rest).take 2) = "21" := by
                      rcases hai with h | h <;> rw [h]
                      · exact Or.inl rfl
                      · exact Or.inr rfl
                    rcases hscan : scanVar ((c :: rest).drop 2) 0 with j | j
                    · simp only [hscan]
                      refine ⟨?_, ?_⟩
                      · intro s hs
                        rcases List.mem_cons.mp hs with rfl | hs'
                        · rcases hmem with h | h
                          · exact Or.inr (Or.inr (Or.inr (Or.inl h)))
                          · exact Or.inr (Or.inr (Or.inr (Or.inr (Or.inl h))))
                        · exact (ih _).1 s hs'
                      · rw [show (List.filter (fun s => s.ai = "??")
                            (⟨String.mk ((c :: rest).take 2),
                              String.mk (((c :: rest).drop 2).take j), none, false⟩ ::
                              (parseLoop mode n (((c :: rest).drop 2).drop (j + 1))).1)) =
                            (parseLoop mode n (((c :: rest).drop 2).drop (j + 1))).1.filter
                              (fun s => s.ai = "??") from by
                          simp [hne]]
                        exact (ih _).2
                    · simp only [hscan]
                      refine ⟨?_, ?_⟩
                      · intro s hs
                        rcases List.mem_cons.mp hs with rfl | hs'
                        · rcases hmem with h | h
                          · exact Or.inr (Or.inr (Or.inr (Or.inl h)))
                          · exact Or.inr (Or.inr (Or.inr (Or.inr (Or.inl h))))
                        · exact (ih _).1 s hs'
                      · rw [show (List.filter (fun s => s.ai = "??")
                            (⟨String.mk ((c :: rest).take 2),
                              String.mk (((c :: rest).drop 2).take j), none, true⟩ ::
                              (parseLoop mode n (((c :: rest).drop 2).drop j)).1)) =
                            (parseLoop mode n (((c :: rest).drop 2).drop j)).1.filter
                              (fun s => s.ai = "??") from by
                          simp [hne]]
                        exact (ih _).2
                    · simp only [hscan]
                      refine ⟨?_, ?_⟩
                      · intro s hs
                        rcases List.mem_cons.mp hs with rfl | hs'
                        · rcases hmem with h | h
                          · exact Or.inr (Or.inr (Or.inr (Or.inl h)))
                          · exact Or.inr (Or.inr (Or.inr (Or.inr (Or.inl h))))
                        · simp at hs'
                      · exact le_trans (List.length_filter_le _ _) (by simp)
                · refine ⟨?_, ?_⟩
                  · intro s hs
                    rcases List.mem_cons.mp hs with rfl | hs'
                    · exact Or.inr (Or.inr (Or.inr (Or.inr (Or.inr rfl))))
                    · simp at hs'
                  · exact le_trans (List.length_filter_le _ _) (by simp)

theorem parseGs1_segments_wf (norm mode : String) :
    (∀ s ∈ (parseGs1 norm mode).segments,
      s.ai = "01" ∨ s.ai = "17" ∨ s.ai = "00" ∨ s.ai = "10" ∨ s.ai = "21" ∨ s.ai = "??") ∧
    (((parseGs1 norm mode).segments.filter (fun s => s.ai = "??")).length ≤ 1) := by
  simp only [parseGs1]
  split
  · constructor
    · intro s hs
      rcases List.mem_cons.mp hs with rfl | hs'
      · exact Or.inl rfl
      · simp at hs'
    · simp
  · exact parseLoop_segments_wf mode _ _

theorem downgradeCheck_code (c : Check) : (downgradeCheck c).code = c.code := by
  unfold downgradeCheck
  split <;> rfl

theorem any_map_downgrade_code (cs : List Check) (X : String) :
    (cs.map downgradeCheck).any (fun c => c.code = X) = cs.any (fun c => c.code = X) := by
  induction cs with
  | nil => rfl
  | cons a t iht => simp [List.any_cons, downgradeCheck_code, iht]

theorem decideChecks_unknown_any (pr : ParseResult) (policy : Policy) (nowMs : Int) :
    (decideChecks pr policy nowMs).any (fun c => c.code = "UNKNOWN_PAYLOAD") =
      pr.segments.any (fun s => s.ai = "??") := by
  unfold decideChecks
  simp only [List.any_append]
  rw [any_code_false_of_ne (fun c hc => by
        rw [(mem_checkNumeric c hc).1]; decide),
      any_code_false_of_ne (fun c hc => by
        rw [mem_checkMissingGs c hc]; decide),
      any_code_false_of_ne (fun c hc => by
        rw [(mem_checkReq01 c hc).1]; decide),
      any_code_false_of_ne (fun c hc => by
        rw [(mem_checkGtin c hc).1]; decide),
      any_code_false_of_ne (fun c hc => by
        rw [(mem_checkReq17 c hc).1]; decide),
      any_code_false_of_ne (fun c hc => by
        rcases mem_checkExpiry c hc with h | h | h | h | h <;> rw [h] <;> decide),
      any_code_false_of_ne (fun c hc => by
        rcases (mem_checkTracking c hc).1 with h | h <;> rw [h] <;> decide),
      checkUnknown_any]
  simp

theorem decideChecks_unknown_sev (pr : ParseResult) (policy : Policy) (nowMs : Int) :
    ∀ c ∈ decideChecks pr policy nowMs, c.code = "UNKNOWN_PAYLOAD" → c.severity = "WARN" := by
  intro c hcm hcode
  unfold decideChecks at hcm
  rcases List.mem_append.mp hcm with hcm | h
  · rcases List.mem_append.mp hcm with hcm | h
    · rcases List.mem_append.mp hcm with hcm | h
      · rcases List.mem_append.mp hcm with hcm | h
        · rcases List.mem_append.mp hcm with hcm | h
          · rcases List.mem_append.mp hcm with hcm | h
            · rcases List.mem_append.mp hcm with h | h
              · rw [(mem_checkNumeric c h).1] at hcode
                exact absurd hcode (by decide)
              · rw [mem_checkMissingGs c h] at hcode
                exact absurd hcode (by decide)
            · rw [(mem_checkReq01 c h).1] at hcode
              exact absurd hcode (by decide)
          · rw [(mem_checkGtin c h).1] at hcode
            exact absurd hcode (by decide)
        · rw [(mem_checkReq17 c h).1] at hcode
          exact absurd hcode (by decide)
      · rcases mem_checkExpiry c h with he | he | he | he | he <;>
          (rw [he] at hcode; exact absurd hcode (by decide))
    · rcases (mem_checkTracking c h).1 with he | he <;>
        (rw [he] at hcode; exact absurd hcode (by decide))
  · exact (mem_checkUnknown c h).2

theorem decide_decision_mem (pr : ParseResult) (policy : Policy) (nb : Bool) (nowMs : Int) :
    (decide pr policy nb nowMs).decision = "PASS" ∨
    (decide pr policy nb nowMs).decision = "WARN" ∨
    (decide pr policy nb nowMs).decision = "BLOCK" := by
  cases nb
  · rw [decide_false_eq]
    show aggregateDecision (decideChecks pr policy nowMs) = "PASS" ∨
      aggregateDecision (decideChecks pr policy nowMs) = "WARN" ∨
      aggregateDecision (decideChecks pr policy nowMs) = "BLOCK"
    unfold aggregateDecision
    split
    · exact Or.inr (Or.inr rfl)
    · split
      · exact Or.inr (Or.inl rfl)
      · exact Or.inl rfl
  · rw [decide_true_eq]
    show (if aggregateDecision (decideChecks pr policy nowMs) = "BLOCK" then "WARN"
        else aggregateDecision (decideChecks pr policy nowMs)) = "PASS" ∨ _ ∨ _
    by_cases h1 : (decideChecks pr policy nowMs).any (fun c => c.severity = "BLOCK") = true
    · have hagg : aggregateDecision (decideChecks pr policy nowMs) = "BLOCK" := by
        unfold aggregateDecision
        rw [if_pos h1]
      rw [hagg, if_pos rfl]
      exact Or.inr (Or.inl rfl)
    · have hagg : aggregateDecision (decideChecks pr policy nowMs) =
          (if (decideChecks pr policy nowMs).length ≠ 0 then "WARN" else "PASS") := by
        unfold aggregateDecision
        rw [if_neg h1]
      rw [hagg]
      by_cases hl : (decideChecks pr policy nowMs).length ≠ 0
      · rw [if_pos hl, if_neg (by decide)]
        exact Or.inr (Or.inl rfl)
      · rw [if_neg hl, if_neg (by decide)]
        exact Or.inl rfl

/-- C9: the engine pipeline is built from total functions (`normalizeInput`,
`parseGs1`, `decide` are total Lean functions over arbitrary strings, so
no input can make them throw), and unrecognized content is worst-case
benign: every segment's AI is one of the five known AIs or the opaque
`"??"`, at most one opaque segment exists, the decision is always one of
PASS/WARN/BLOCK, and a WARN-severity `UNKNOWN_PAYLOAD` check is emitted
exactly when an opaque segment exists. -/
theorem engine_total_worst_case (raw mode : String) (policy : Policy) (nb : Bool) (nowMs : Int) :
    (∀ s ∈ (parseGs1 (normalizeInput raw) mode).segments,
      s.ai = "01" ∨ s.ai = "17" ∨ s.ai = "00" ∨ s.ai = "10" ∨ s.ai = "21" ∨ s.ai = "??") ∧
    (((parseGs1 (normalizeInput raw) mode).segments.filter (fun s => s.ai = "??")).length ≤ 1) ∧
    ((decide (parseGs1 (normalizeInput raw) mode) policy nb nowMs).decision = "PASS" ∨
     (decide (parseGs1 (normalizeInput raw) mode) policy nb nowMs).decision = "WARN" ∨
     (decide (parseGs1 (normalizeInput raw) mode) policy nb nowMs).decision = "BLOCK") ∧
    ((decide (parseGs1 (normalizeInput raw) mode) policy nb nowMs).checks.any
        (fun c => c.code = "UNKNOWN_PAYLOAD")) =
      ((parseGs1 (normalizeInput raw) mode).segments.any (fun s => s.ai = "??")) ∧
    ((decide (parseGs1 (normalizeInput raw) mode) policy nb nowMs).checks.filter
        (fun c => c.code = "UNKNOWN_PAYLOAD")).all (fun c => c.severity = "WARN") = true := by
  refine ⟨(parseGs1_segments_wf _ _).1, (parseGs1_segments_wf _ _).2,
    decide_decision_mem _ _ _ _, ?_, ?_⟩
  · cases nb
    · rw [decide_false_eq]
      exact decideChecks_unknown_any _ _ _
    · rw [decide_true_eq]
      show ((decideChecks (parseGs1 (normalizeInput raw) mode) policy nowMs).map
          downgradeCheck).any (fun c => c.code = "UNKNOWN_PAYLOAD") = _
      rw [any_map_downgrade_code]
      exact decideChecks_unknown_any _ _ _
  · cases nb
    · rw [decide_false_eq]
      show ((decideChecks (parseGs1 (normalizeInput raw) mode) policy nowMs).filter
        (fun c => c.code = "UNKNOWN_PAYLOAD")).all (fun c => c.severity = "WARN") = true
      rw [List.all_eq_true]
      intro c hc
      rw [List.mem_filter] at hc
      obtain ⟨hcm, hcode⟩ := hc
      have := decideChecks_unknown_sev _ _ _ c hcm (by simpa using hcode)
      simp [this]
    · rw [decide_true_eq]
      show ((((decideChecks (parseGs1 (normalizeInput raw) mode) policy nowMs).map
          downgradeCheck).filter (fun c => c.code = "UNKNOWN_PAYLOAD")).all
        (fun c => c.severity = "WARN")) = true
      rw [List.all_eq_true]
      intro c hc
      rw [List.mem_filter] at hc
      obtain ⟨hcm, hcode⟩ := hc
      obtain ⟨c0, hc0, rfl⟩ := List.mem_map.mp hcm
      have hcode0 : c0.code = "UNKNOWN_PAYLOAD" := by
        rw [← downgradeCheck_code c0]
        simpa using hcode
      have hsev0 := decideChecks_unknown_sev _ _ _ c0 hc0 hcode0
      have : downgradeCheck c0 = c0 := by
        unfold downgradeCheck
        rw [if_neg (by rw [hsev0]; decide)]
      rw [this]
      simp [hsev0]

theorem mem_collapseParenPairs : ∀ (l : List Char) (x : Char),
    x ∈ collapseParenPairs l → x ∈ l := by
  intro l
  induction l using collapseParenPairs.induct with
  | case1 =>
      intro x hx
      simp [collapseParenPairs] at hx
  | case2 c =>
      intro x hx
      simpa [collapseParenPairs] using hx
  | case3 c d rest hcd ih =>
      intro x hx
      rw [show collapseParenPairs (c :: d :: rest) = collapseParenPairs rest from by
        simp only [collapseParenPairs, if_pos hcd]] at hx
      exact List.mem_cons_of_mem c (List.mem_cons_of_mem d (ih x hx))
  | case4 c d rest hcd ih =>
      intro x hx
      rw [show collapseParenPairs (c :: d :: rest) = c :: collapseParenPairs (d :: rest) from by
        simp only [collapseParenPairs, if_neg hcd]] at hx
      rcases List.mem_cons.mp hx with rfl | hx'
      · exact List.mem_cons_self x _
      · exact List.mem_cons_of_mem c (ih x hx')

theorem collapseParenPairs_eq_self : ∀ (l : List Char),
    (∀ x ∈ l, x ≠ ')') → collapseParenPairs l = l := by
  intro l
  induction l using collapseParenPairs.induct with
  | case1 => intro h; rfl
  | case2 c => intro h; rfl
  | case3 c d rest hcd ih =>
      intro h
      exact absurd hcd.1 (h c (List.mem_cons_self c _))
  | case4 c d rest hcd ih =>
      intro h
      rw [show collapseParenPairs (c :: d :: rest) = c :: collapseParenPairs (d :: rest) from by
        simp only [collapseParenPairs, if_neg hcd]]
      rw [ih (fun x hx => h x (List.mem_cons_of_mem c hx))]

theorem dropWhile_eq_self_of_none (p : Char → Bool) (l : List Char)
    (h : ∀ x ∈ l, p x = false) : l.dropWhile p = l := by
  cases l with
  | nil => rfl
  | cons c rest =>
      rw [List.dropWhile_cons, if_neg (by simp [h c (List.mem_cons_self c _)])]

theorem trimList_eq_self (l : List Char) (h : ∀ x ∈ l, isJsWs x = false) : trimList l = l := by
  unfold trimList
  rw [dropWhile_eq_self_of_none isJsWs l h,
    dropWhile_eq_self_of_none isJsWs l.reverse (fun x hx => h x (List.mem_reverse.mp hx)),
    List.reverse_reverse]

theorem stripSymbology_eq_self (l : List Char) (h : startsSymb l = false) :
    stripSymbology l = l := by
  unfold stripSymbology
  split
  · next a b rest =>
      rw [if_neg]
      rw [show startsSymb (']' :: a :: b :: rest) = symCode a b from rfl] at h
      simp [h]
  · rfl

theorem isPrefixOf_cons_decomp : ∀ (pat l : List Char),
    pat.isPrefixOf l = true → ∃ t, l = pat ++ t := by
  intro pat
  induction pat with
  | nil =>
      intro l _
      exact ⟨l, rfl⟩
  | cons p ps ih =>
      intro l hp
      cases l with
      | nil => simp [List.isPrefixOf] at hp
      | cons c rest =>
          rw [List.isPrefixOf_cons₂] at hp
          rw [Bool.and_eq_true] at hp
          obtain ⟨t, ht⟩ := ih rest hp.2
          exact ⟨t, by rw [List.cons_append, ← ht, show p = c from by simpa using hp.1]⟩

theorem mem_replaceGsEsc : ∀ (l : List Char) (x : Char),
    x ∈ replaceGsEsc l → x ∈ l ∨ x = GSc := by
  intro l
  induction l using replaceGsEsc.induct with
  | case1 =>
      intro x hx
      simp [replaceGsEsc] at hx
  | case2 d rest hd ih =>
      intro x hx
      rw [show replaceGsEsc ('\\' :: 'u' :: '0' :: '0' :: '1' :: d :: rest) =
          GSc :: replaceGsEsc rest from by simp only [replaceGsEsc, if_pos hd]] at hx
      rcases List.mem_cons.mp hx with rfl | hx'
      · exact Or.inr rfl
      · rcases ih x hx' with h | h
        · exact Or.inl (by simp [h])
        · exact Or.inr h
  | case3 d rest hd ih =>
      intro x hx
      rw [show replaceGsEsc ('\\' :: 'u' :: '0' :: '0' :: '1' :: d :: rest) =
          '\\' :: replaceGsEsc ('u' :: '0' :: '0' :: '1' :: d :: rest) from by
        simp only [replaceGsEsc, if_neg hd]] at hx
      rcases List.mem_cons.mp hx with rfl | hx'
      · exact Or.inl (List.mem_cons_self _ _)
      · rcases ih x hx' with h | h
        · refine Or.inl ?_
          simp at h ⊢
          tauto
        · exact Or.inr h
  | case4 c rest hshape ih =>
      intro x hx
      rw [replaceGsEsc.eq_def] at hx
      split at hx
      · next q heq => simp at heq
      · next q d2 rest2 heq =>
          exfalso
          injection heq with e1 e2
          exact hshape d2 rest2 e1 e2
      · next q c2 rest2 h1 heq =>
          injection heq with e1 e2
          subst e1
          subst e2
          rcases List.mem_cons.mp hx with rfl | hx'
          · exact Or.inl (List.mem_cons_self x _)
          · rcases ih x hx' with h | h
            · exact Or.inl (List.mem_cons_of_mem _ h)
            · exact Or.inr h

theorem replaceGsEsc_eq_self : ∀ (l : List Char), hasGsEsc l = false → replaceGsEsc l = l := by
  intro l
  induction l using replaceGsEsc.induct with
  | case1 => intro h; rfl
  | case2 d rest hd ih =>
      intro h
      exfalso
      have hs : startsGsEsc ('\\' :: 'u' :: '0' :: '0' :: '1' :: d :: rest) = true := by
        rcases hd with rfl | rfl <;> simp [startsGsEsc, List.isPrefixOf]
      simp [hasGsEsc, hs] at h
  | case3 d rest hd ih =>
      intro h
      have h5 : hasGsEsc ('u' :: '0' :: '0' :: '1' :: d :: rest) = false := by
        rw [show hasGsEsc ('\\' :: 'u' :: '0' :: '0' :: '1' :: d :: rest) =
            (startsGsEsc ('\\' :: 'u' :: '0' :: '0' :: '1' :: d :: rest) ||
             hasGsEsc ('u' :: '0' :: '0' :: '1' :: d :: rest)) from rfl] at h
        rw [Bool.or_eq_false_iff] at h
        exact h.2
      have hih := ih h5
      simp only [replaceGsEsc] at hih ⊢
      rw [if_neg hd]
      simp only [List.cons.injEq] at hih
      rw [hih.2.2.2.2]
  | case4 c rest hshape ih =>
      intro h
      have hr : hasGsEsc rest = false := by
        rw [show hasGsEsc (c :: rest) =
            (startsGsEsc (c :: rest) || hasGsEsc rest) from rfl] at h
        rw [Bool.or_eq_false_iff] at h
        exact h.2
      rw [replaceGsEsc.eq_def]
      split
      · next q heq => simp at heq
      · next q d2 rest2 heq =>
          exfalso
          injection heq with e1 e2
          exact hshape d2 rest2 e1 e2
      · next q c2 rest2 h1 heq =>
          injection heq with e1 e2
          subst e1
          subst e2
          rw [ih hr]

theorem prefix_transfer_replaceGsEsc : ∀ (l pat : List Char),
    (∀ y ∈ pat, y ≠ '\\' ∧ y ≠ GSc) →
    pat.isPrefixOf (replaceGsEsc l) = true → pat.isPrefixOf l = true := by
  intro l
  induction l using replaceGsEsc.induct with
  | case1 =>
      intro pat hpat hp
      simpa [replaceGsEsc] using hp
  | case2 d rest hd ih =>
      intro pat hpat hp
      cases pat with
      | nil => rfl
      | cons p ps =>
          rw [show replaceGsEsc ('\\' :: 'u' :: '0' :: '0' :: '1' :: d :: rest) =
              GSc :: replaceGsEsc rest from by simp only [replaceGsEsc, if_pos hd]] at hp
          rw [List.isPrefixOf_cons₂, Bool.and_eq_true] at hp
          exact absurd (by simpa using hp.1) (hpat p (List.mem_cons_self p ps)).2
  | case3 d rest hd ih =>
      intro pat hpat hp
      cases pat with
      | nil => rfl
      | cons p ps =>
          rw [show replaceGsEsc ('\\' :: 'u' :: '0' :: '0' :: '1' :: d :: rest) =
              '\\' :: replaceGsEsc ('u' :: '0' :: '0' :: '1' :: d :: rest) from by
            simp only [replaceGsEsc, if_neg hd]] at hp
          rw [List.isPrefixOf_cons₂, Bool.and_eq_true] at hp
          exact absurd (by simpa using hp.1) (hpat p (List.mem_cons_self p ps)).1
  | case4 c rest hshape ih =>
      intro pat hpat hp
      cases pat with
      | nil => rfl
      | cons p ps =>
          rw [replaceGsEsc.eq_def] at hp
          split at hp
          · next q heq => simp at heq
          · next q d2 rest2 heq =>
              exfalso
              injection heq with e1 e2
              exact hshape d2 rest2 e1 e2
          · next q c2 rest2 h1 heq =>
              injection heq with e1 e2
              subst e1
              subst e2
              rw [List.isPrefixOf_cons₂, Bool.and_eq_true] at hp ⊢
              exact ⟨hp.1, ih ps (fun y hy => hpat y (List.mem_cons_of_mem p hy)) hp.2⟩

theorem hasGsEsc_replaceGsEsc : ∀ (l : List Char), hasGsEsc (replaceGsEsc l) = false := by
  intro l
  induction l using replaceGsEsc.induct with
  | case1 => rfl
  | case2 d rest hd ih =>
      rw [show replaceGsEsc ('\\' :: 'u' :: '0' :: '0' :: '1' :: d :: rest) =
          GSc :: replaceGsEsc rest from by simp only [replaceGsEsc, if_pos hd]]
      rw [show hasGsEsc (GSc :: replaceGsEsc rest) =
          (startsGsEsc (GSc :: replaceGsEsc rest) || hasGsEsc (replaceGsEsc rest)) from rfl]
      rw [ih]
      have hs : startsGsEsc (GSc :: replaceGsEsc rest) = false := by
        have h1 : (('\\' : Char) == GSc) = false := by decide
        simp [startsGsEsc, List.isPrefixOf, h1]
      rw [hs]
      rfl
  | case3 d rest hd ih =>
      rw [show replaceGsEsc ('\\' :: 'u' :: '0' :: '0' :: '1' :: d :: rest) =
          '\\' :: replaceGsEsc ('u' :: '0' :: '0' :: '1' :: d :: rest) from by
        simp only [replaceGsEsc, if_neg hd]]
      rw [show hasGsEsc ('\\' :: replaceGsEsc ('u' :: '0' :: '0' :: '1' :: d :: rest)) =
          (startsGsEsc ('\\' :: replaceGsEsc ('u' :: '0' :: '0' :: '1' :: d :: rest)) ||
           hasGsEsc (replaceGsEsc ('u' :: '0' :: '0' :: '1' :: d :: rest))) from rfl]
      rw [ih]
      have hs : startsGsEsc ('\\' :: replaceGsEsc ('u' :: '0' :: '0' :: '1' :: d :: rest)) = false := by
        cases hb : startsGsEsc ('\\' :: replaceGsEsc ('u' :: '0' :: '0' :: '1' :: d :: rest))
        · rfl
        · exfalso
          rw [startsGsEsc, Bool.or_eq_true] at hb
          rcases hb with hb | hb
          · rw [List.isPrefixOf_cons₂, Bool.and_eq_true] at hb
            have hpre := prefix_transfer_replaceGsEsc ('u' :: '0' :: '0' :: '1' :: d :: rest)
              ['u', '0', '0', '1', 'd'] (by decide) hb.2
            simp [List.isPrefixOf] at hpre
            exact hd (Or.inl hpre.symm)
          · rw [List.isPrefixOf_cons₂, Bool.and_eq_true] at hb
            have hpre := prefix_transfer_replaceGsEsc ('u' :: '0' :: '0' :: '1' :: d :: rest)
              ['u', '0', '0', '1', 'D'] (by decide) hb.2
            simp [List.isPrefixOf] at hpre
            exact hd (Or.inr hpre.symm)
      rw [hs]
      rfl
  | case4 c rest hshape ih =>
      rw [replaceGsEsc.eq_def]
      split
      · next q heq => simp at heq
      · next q d2 rest2 heq =>
          exfalso
          injection heq with e1 e2
          exact hshape d2 rest2 e1 e2
      · next q c2 rest2 h1 heq =>
          injection heq with e1 e2
          subst e1
          subst e2
          rw [show hasGsEsc (c :: replaceGsEsc rest) =
              (startsGsEsc (c :: replaceGsEsc rest) || hasGsEsc (replaceGsEsc rest)) from rfl]
          rw [ih]
          have hs : startsGsEsc (c :: replaceGsEsc rest) = false := by
            cases hb : startsGsEsc (c :: replaceGsEsc rest)
            · rfl
            · exfalso
              rw [startsGsEsc, Bool.or_eq_true] at hb
              rcases hb with hb | hb
              · rw [List.isPrefixOf_cons₂, Bool.and_eq_true] at hb
                have hc : c = '\\' := by
                  have := hb.1
                  simp at this
                  exact this.symm
                have hpre := prefix_transfer_replaceGsEsc rest
                  ['u', '0', '0', '1', 'd'] (by decide) hb.2
                obtain ⟨t, ht⟩ := isPrefixOf_cons_decomp _ _ hpre
                exact hshape 'd' t hc ht
              · rw [List.isPrefixOf_cons₂, Bool.and_eq_true] at hb
                have hc : c = '\\' := by
                  have := hb.1
                  simp at this
                  exact this.symm
                have hpre := prefix_transfer_replaceGsEsc rest
                  ['u', '0', '0', '1', 'D'] (by decide) hb.2
                obtain ⟨t, ht⟩ := isPrefixOf_cons_decomp _ _ hpre
                exact hshape 'D' t hc ht
          rw [hs]
          rfl

theorem normList_chars (l : List Char) :
    ∀ x ∈ normList l, isJsWs x = false ∧ x ≠ '(' ∧ x ≠ ')' := by
  intro x hx
  unfold normList at hx
  rcases mem_replaceGsEsc _ x hx with h | rfl
  · obtain ⟨h1, h2⟩ := List.mem_filter.mp h
    have h3 := mem_collapseParenPairs _ x h1
    obtain ⟨h4, h5⟩ := List.mem_filter.mp h3
    refine ⟨by simpa using h5, ?_⟩
    simpa using h2
  · exact ⟨by decide, by decide, by decide⟩

theorem normList_no_esc (l : List Char) : hasGsEsc (normList l) = false :=
  hasGsEsc_replaceGsEsc _

/-- C6 (amended): the normalizer is idempotent on inputs with no
embedded control characters whose normalized form does not itself begin
with a symbology-identifier prefix (`]` followed by one of
C1/c1/d2/D2/Q3/q3/e0/E0).  Without the latter condition idempotence
fails, because removing whitespace or parentheses can create a fresh
`]xx` prefix that only the second pass strips. -/
theorem normalizeInput_idempotent (s : String)
    (hctl : s.data.all (fun c => 32 ≤ c.toNat && c.toNat ≠ 127) = true)
    (hsym : startsSymb (normalizeInput s).data = false) :
    normalizeInput (normalizeInput s) = normalizeInput s := by
  by_cases hs : s = ""
  · subst hs
    rfl
  · have hns : normalizeInput s = String.mk (normList s.data) := by
      unfold normalizeInput
      rw [if_neg hs]
    by_cases ht : normalizeInput s = ""
    · rw [ht]
      decide
    · have hsym' : startsSymb (normList s.data) = false := by
        rw [hns] at hsym
        exact hsym
      have key : normList (normList s.data) = normList s.data := by
        have c1 : trimList (normList s.data) = normList s.data :=
          trimList_eq_self _ (fun x hx => (normList_chars s.data x hx).1)
        have c2 : stripSymbology (normList s.data) = normList s.data :=
          stripSymbology_eq_self _ hsym'
        have c3 : removeWs (normList s.data) = normList s.data :=
          List.filter_eq_self.mpr (fun x hx => by
            simp [(normList_chars s.data x hx).1])
        have c4 : collapseParenPairs (normList s.data) = normList s.data :=
          collapseParenPairs_eq_self _ (fun x hx => (normList_chars s.data x hx).2.2)
        have c5 : stripParens (normList s.data) = normList s.data :=
          List.filter_eq_self.mpr (fun x hx => by
            have h := (normList_chars s.data x hx).2
            simp [h.1, h.2])
        have c6 : replaceGsEsc (normList s.data) = normList s.data :=
          replaceGsEsc_eq_self _ (normList_no_esc s.data)
        show replaceGsEsc (stripParens (collapseParenPairs (removeWs
          (stripSymbology (trimList (normList s.data)))))) = normList s.data
        rw [c1, c2, c3, c4, c5, c6]
      calc normalizeInput (normalizeInput s)
          = normalizeInput (String.mk (normList s.data)) := by rw [hns]
        _ = String.mk (normList (String.mk (normList s.data)).data) := by
            unfold normalizeInput
            rw [if_neg (by rw [← hns]; exact ht)]
        _ = String.mk (normList s.data) := by rw [show (String.mk (normList s.data)).data =
              normList s.data from rfl, key]
        _ = normalizeInput s := hns.symm

/-- C6 witness: a plain digit payload is a fixed point of the
normalizer. -/
theorem normalizeInput_idempotent_witness :
    ("0100012345678905" : String).data.all (fun c => 32 ≤ c.toNat && c.toNat ≠ 127) = true ∧
    startsSymb (normalizeInput "0100012345678905").data = false ∧
    normalizeInput (normalizeInput "0100012345678905") = normalizeInput "0100012345678905" :=
  ⟨by decide, by decide, normalizeInput_idempotent "0100012345678905" (by decide) (by decide)⟩

/-- C6 counterexample: `"](C1)X"` contains no control characters, yet
one pass yields `"]C1X"` (the parentheses are removed, exposing a fresh
symbology prefix) and the second pass strips `]C1`, so normalize is not
idempotent on it. -/
theorem normalizeInput_not_idempotent :
    ("](C1)X" : String).data.all (fun c => 32 ≤ c.toNat && c.toNat ≠ 127) = true ∧
    normalizeInput (normalizeInput "](C1)X") ≠ normalizeInput "](C1)X" := by
  decide
